import Mathlib

/-!
Verification development for the egui_glfw_gl2 repository: a shallow
embedding, in Lean 4, of the GPU texture / draw protocol of
src/painter.rs, src/gui/ui_render.rs, src/gui/ui_texture.rs, and of the
input translator of src/lib.rs and src/input_translate.rs.

Modelling conventions.
* Machine integers (u8, i32, u32, u64, usize) are modelled by Nat / Int;
  where truncation matters (the u32 -> u16 index cast) it is written as
  an explicit modulus.
* f32 values (clip rectangles, pixels-per-point, scroll deltas) are
  modelled by rationals.  All concrete examples below use values that are
  exactly representable in f32 with exact f32 arithmetic, so the rational
  model agrees with the source on them.
* GL calls do not execute; each GL entry point the claims care about is
  recorded as an element of an explicit action trace, in the exact order
  the source issues the calls.  Calls irrelevant to every claim (buffer
  binds that are immediately followed by a buffer-data call they enable)
  are folded into the recording of the following call.
* Rust assertion failures, expect and the callback case are modelled by
  the error branch of Except; functions that cannot fail return plain
  values.
* HashMap is modelled as an association list: insert replaces the value
  in place when the key exists and appends otherwise; value iteration
  follows the list order (the source iteration order is unspecified, and
  no claim depends on the order of entries within one upload phase).
-/

set_option maxRecDepth 8000

namespace EguiGlfw

/-- egui Modifiers record (alt, ctrl, shift, mac_cmd, command). -/
structure Modifiers where
  alt : Bool
  ctrl : Bool
  shift : Bool
  mac_cmd : Bool
  command : Bool
deriving DecidableEq

/-- glfw key modifier mask, modelled as one flag per bit the source tests. -/
structure GlfwMods where
  alt : Bool
  ctrl : Bool
  shift : Bool
deriving DecidableEq

/-- src/input_translate.rs translate_modifiers: command aliases ctrl and
mac_cmd is always false (glfw does not expose the mac command key). -/
def translate_modifiers (keymod : GlfwMods) : Modifiers :=
  { alt := keymod.alt
    ctrl := keymod.ctrl
    shift := keymod.shift
    mac_cmd := false
    command := keymod.ctrl }

/-- The glfw keys named by src/input_translate.rs (the full match of
translate_virtual_key_code plus representatives of the unmapped arm). -/
inductive GKey
  | Left | Up | Right | Down
  | Escape | Tab | Backspace | Space | Enter
  | Insert | Home | Delete | End | PageDown | PageUp
  | A | B | C | D | E | F | G | H | I | J | K | L | M
  | N | O | P | Q | R | S | T | U | V | W | X | Y | Z
  | F1 | LeftShift | RightControl
deriving DecidableEq

/-- The egui keys in the image of the key table. -/
inductive EKey
  | ArrowLeft | ArrowUp | ArrowRight | ArrowDown
  | Escape | Tab | Backspace | Space | Enter
  | Insert | Home | Delete | End | PageDown | PageUp
  | A | B | C | D | E | F | G | H | I | J | K | L | M
  | N | O | P | Q | R | S | T | U | V | W | X | Y | Z
deriving DecidableEq

/-- src/input_translate.rs translate_virtual_key_code. -/
def translate_virtual_key_code : GKey → Option EKey
  | GKey.Left => some EKey.ArrowLeft
  | GKey.Up => some EKey.ArrowUp
  | GKey.Right => some EKey.ArrowRight
  | GKey.Down => some EKey.ArrowDown
  | GKey.Escape => some EKey.Escape
  | GKey.Tab => some EKey.Tab
  | GKey.Backspace => some EKey.Backspace
  | GKey.Space => some EKey.Space
  | GKey.Enter => some EKey.Enter
  | GKey.Insert => some EKey.Insert
  | GKey.Home => some EKey.Home
  | GKey.Delete => some EKey.Delete
  | GKey.End => some EKey.End
  | GKey.PageDown => some EKey.PageDown
  | GKey.PageUp => some EKey.PageUp
  | GKey.A => some EKey.A
  | GKey.B => some EKey.B
  | GKey.C => some EKey.C
  | GKey.D => some EKey.D
  | GKey.E => some EKey.E
  | GKey.F => some EKey.F
  | GKey.G => some EKey.G
  | GKey.H => some EKey.H
  | GKey.I => some EKey.I
  | GKey.J => some EKey.J
  | GKey.K => some EKey.K
  | GKey.L => some EKey.L
  | GKey.M => some EKey.M
  | GKey.N => some EKey.N
  | GKey.O => some EKey.O
  | GKey.P => some EKey.P
  | GKey.Q => some EKey.Q
  | GKey.R => some EKey.R
  | GKey.S => some EKey.S
  | GKey.T => some EKey.T
  | GKey.U => some EKey.U
  | GKey.V => some EKey.V
  | GKey.W => some EKey.W
  | GKey.X => some EKey.X
  | GKey.Y => some EKey.Y
  | GKey.Z => some EKey.Z
  | _ => none

/-- src/input_translate.rs is_cut_command.  The windows flag models the
compile-time cfg test for the windows target family. -/
def is_cut_command (windows : Bool) (modifiers : Modifiers) (keycode : GKey) : Bool :=
  (modifiers.command && keycode == GKey.X)
    || (windows && modifiers.shift && keycode == GKey.Delete)

/-- src/input_translate.rs is_copy_command. -/
def is_copy_command (windows : Bool) (modifiers : Modifiers) (keycode : GKey) : Bool :=
  (modifiers.command && keycode == GKey.C)
    || (windows && modifiers.ctrl && keycode == GKey.Insert)

/-- src/input_translate.rs is_paste_command. -/
def is_paste_command (windows : Bool) (modifiers : Modifiers) (keycode : GKey) : Bool :=
  (modifiers.command && keycode == GKey.V)
    || (windows && modifiers.shift && keycode == GKey.Insert)

/-- The egui events pushed by UserInputState::handle_event, restricted to
the payloads the claims mention.  The Zoom payload stores the argument of
the exponential: the source pushes Zoom of Float.exp of this rational
(exp itself is toolkit-side f32 math and is injective, so the argument
determines the pushed event). -/
inductive EguiEvent
  | Cut
  | Copy
  | Paste (text : String)
  | Key (key : EKey) (pressed : Bool) (key_repeat : Bool) (modifiers : Modifiers)
  | Text (text : String)
  | Scroll (x y : ℚ)
  | Zoom (exp_arg : ℚ)
deriving DecidableEq

/-- glfw key / button action. -/
inductive KAction | Press | Release | Repeat
deriving DecidableEq

/-- src/lib.rs UserInputState::get_clipboard_content.  The parameter
models the Option clipboard handle together with the Result of
get_contents: none means no handle or a read error. -/
def get_clipboard_content (clipboard : Option String) : Option String :=
  match clipboard with
  | some content =>
      if content.isEmpty then none
      else some (content.replace "\r\n" "\n")
  | none => none

/-- src/lib.rs handle_event, Scroll arm: scale by 50 points per scroll
line, negate x, then branch on the modifiers current at the event. -/
def handle_scroll (modifiers : Modifiers) (x_offset y_offset : ℚ) : List EguiEvent :=
  let points_per_scroll_line : ℚ := 50
  let delta_x0 := x_offset * points_per_scroll_line
  let delta_y := y_offset * points_per_scroll_line
  let delta_x := delta_x0 * (-1)
  if modifiers.ctrl || modifiers.command then
    [EguiEvent.Zoom (delta_y / 200)]
  else if modifiers.shift then
    [EguiEvent.Scroll (delta_x + delta_y) 0]
  else
    [EguiEvent.Scroll delta_x delta_y]

/-- src/lib.rs handle_event, Key arm: update the modifiers from the event
mask, recognise clipboard chords on press, then push a Key event when the
key is in the table.  Returns the new modifier state and the events
pushed, in push order. -/
def handle_key (windows : Bool) (clipboard : Option String)
    (keycode : GKey) (action : KAction) (keymod : GlfwMods) :
    Modifiers × List EguiEvent :=
  let modifiers := translate_modifiers keymod
  let pressed := action == KAction.Press
  let key_repeat := action == KAction.Repeat
  let chord_events : List EguiEvent :=
    if pressed then
      if is_cut_command windows modifiers keycode then [EguiEvent.Cut]
      else if is_copy_command windows modifiers keycode then [EguiEvent.Copy]
      else if is_paste_command windows modifiers keycode then
        match get_clipboard_content clipboard with
        | some content => [EguiEvent.Paste content]
        | none => []
      else []
    else []
  let key_events : List EguiEvent :=
    match translate_virtual_key_code keycode with
    | some key => [EguiEvent.Key key pressed key_repeat modifiers]
    | none => []
  (modifiers, chord_events ++ key_events)

/-! ## Shared renderer data model (egui types consumed by both renderers) -/

/-- egui TextureId: Managed (toolkit owned) or User (integration owned). -/
inductive TextureId
  | Managed (idx : ℕ)
  | User (idx : ℕ)
deriving DecidableEq

/-- egui TextureFilter. -/
inductive TextureFilter | Nearest | Linear
deriving DecidableEq

/-- egui TextureWrapMode. -/
inductive TextureWrapMode | ClampToEdge | Repeat | MirroredRepeat
deriving DecidableEq

/-- egui TextureOptions. -/
structure TextureOptions where
  magnification : TextureFilter
  minification : TextureFilter
  wrap_mode : TextureWrapMode
deriving DecidableEq

/-- egui Color32: four u8 channels. -/
structure Color32 where
  r : ℕ
  g : ℕ
  b : ℕ
  a : ℕ
deriving DecidableEq

/-- The byte payload handed to a GL upload call.  colorBytes models the
flat_map of to_array over a Color32 pixel list.  fontBytes gamma n models
the bytes of font.srgba_pixels(Some gamma) over a font image with n
coverage samples; the coverage-to-sRGBA conversion is toolkit code
outside this repository, so only the gamma argument and the sample count
are carried. -/
inductive PixelData
  | colorBytes (pixels : List Color32)
  | fontBytes (gamma : ℚ) (coverage : ℕ)
deriving DecidableEq

/-- Emptiness of a pending pixel buffer (Vec is_empty in the source). -/
def PixelData.is_empty : PixelData → Bool
  | PixelData.colorBytes pixels => pixels.isEmpty
  | PixelData.fontBytes _ coverage => coverage == 0

/-- egui ImageData: a colour image or a font (coverage) image.  The
stored width and height are the image size; for a colour image the pixel
list length is asserted against width * height where the source asserts. -/
inductive ImageData
  | Color (width height : ℕ) (pixels : List Color32)
  | Font (width height : ℕ) (coverage : ℕ)
deriving DecidableEq

/-- egui ImageData::size as [w, h]. -/
def ImageData.size : ImageData → ℕ × ℕ
  | ImageData.Color w h _ => (w, h)
  | ImageData.Font w h _ => (w, h)

/-- egui epaint ImageDelta. -/
structure ImageDelta where
  image : ImageData
  options : TextureOptions
  pos : Option (ℕ × ℕ)
deriving DecidableEq

/-- egui TexturesDelta. -/
structure TexturesDelta where
  set : List (TextureId × ImageDelta)
  free : List TextureId
deriving DecidableEq

/-- egui epaint Vertex: position, uv, sRGBA colour. -/
structure Vertex where
  pos : ℚ × ℚ
  uv : ℚ × ℚ
  color : Color32
deriving DecidableEq

/-- egui epaint Mesh.  Indices are u32 in the source; both renderers
narrow them to u16 per draw call. -/
structure Mesh where
  texture_id : TextureId
  vertices : List Vertex
  indices : List ℕ
deriving DecidableEq

/-- egui emath Rect, by min and max corners. -/
structure Rect where
  min_x : ℚ
  min_y : ℚ
  max_x : ℚ
  max_y : ℚ
deriving DecidableEq

/-- egui epaint Primitive. -/
inductive Primitive
  | Mesh (mesh : Mesh)
  | Callback
deriving DecidableEq

/-- egui ClippedPrimitive. -/
structure ClippedPrimitive where
  clip_rect : Rect
  primitive : Primitive
deriving DecidableEq

/-! ## GL action traces -/

/-- GL capabilities toggled by the renderers. -/
inductive GLCap | FramebufferSrgb | ScissorTest | Blend
deriving DecidableEq

/-- Internal formats passed to glTexImage2D by this repository. -/
inductive InternalFormat | Rgba | Srgb8Alpha8
deriving DecidableEq

/-- One recorded GL call (or diagnostic print).  Buffer binds that only
select the target of the immediately following buffer-data call are
folded into that call; attribute pointers are recorded by the enable
call.  Painter addresses attributes by name, GuiRender by location. -/
inductive Action
  | glEnable (cap : GLCap)
  | glDisable (cap : GLCap)
  | glBlendFuncPremultipliedAlpha
  | glUseProgram
  | glActiveTexture0
  | glUniformScreenSize (x y : ℚ)
  | glUniformSampler0
  | glViewport (w h : ℕ)
  | glScissor (x y w h : ℤ)
  | glGenTexture (name : ℕ)
  | glBindTexture (name : ℕ)
  | glDeleteTexture (name : ℕ)
  | glTexParameterWrapS (wrap : TextureWrapMode)
  | glTexParameterWrapT (wrap : TextureWrapMode)
  | glTexParameterMinFilter (filter : TextureFilter)
  | glTexParameterMagFilter (filter : TextureFilter)
  | glPixelStoreUnpackAlignment1
  | glTexSwizzleA
  | glTexImage2D (internal : InternalFormat) (w h : ℕ) (data : PixelData)
  | glTexSubImage2D (x y w h : ℤ) (data : PixelData)
  | glBindVertexArray
  | glBufferIndexData (indices : List ℕ)
  | glBufferPosData (positions : List ℚ)
  | glBufferTcData (tex_coords : List ℚ)
  | glBufferColorData (colors : List ℕ)
  | glBufferInterleavedVertexData (vertices : List Vertex)
  | glEnableAttribByName (attr : String)
  | glDisableAttribByName (attr : String)
  | glEnableAttribAt (loc : ℕ)
  | glDisableAttribAt (loc : ℕ)
  | glDrawElements (count : ℕ)
  | diag (msg : String)
deriving DecidableEq

/-- Draw calls, for phase-separation statements. -/
def Action.is_draw : Action → Bool
  | Action.glDrawElements _ => true
  | _ => false

/-- The gamma of the font payload of an upload action, when there is one. -/
def Action.font_gamma : Action → Option ℚ
  | Action.glTexImage2D _ _ _ (PixelData.fontBytes gamma _) => some gamma
  | Action.glTexSubImage2D _ _ _ _ (PixelData.fontBytes gamma _) => some gamma
  | _ => none

/-- The internal format of an upload action, when there is one. -/
def Action.tex_image_format : Action → Option InternalFormat
  | Action.glTexImage2D internal _ _ _ => some internal
  | _ => none

/-! ## Clip-rectangle to scissor conversion (shared by both paint_mesh
functions; the block is identical in src/painter.rs lines 347-371 and
src/gui/ui_render.rs lines 233-252) -/

/-- Rust f32::round — round half away from zero.  The renderers apply it
to values already clamped to [0, framebuffer size], hence nonnegative,
but the general definition is kept. -/
def rust_round (q : ℚ) : ℤ :=
  if q < 0 then -(-q + 1/2).floor else (q + 1/2).floor

/-- Rust f32::clamp(lo, hi). -/
def rust_clamp (x lo hi : ℚ) : ℚ :=
  if x < lo then lo else if x > hi then hi else x

/-- The scissor rectangle computed by both paint_mesh functions: scale
the clip rectangle by pixels_per_point, clamp min to [0, size] and max to
[min, size], round each coordinate, then convert to a bottom-origin
rectangle. -/
def compute_scissor (canvas_width canvas_height : ℕ) (pixels_per_point : ℚ)
    (clip_rect : Rect) : ℤ × ℤ × ℤ × ℤ :=
  let screen_w : ℚ := canvas_width
  let screen_h : ℚ := canvas_height
  let clip_min_x := pixels_per_point * clip_rect.min_x
  let clip_min_y := pixels_per_point * clip_rect.min_y
  let clip_max_x := pixels_per_point * clip_rect.max_x
  let clip_max_y := pixels_per_point * clip_rect.max_y
  let clip_min_x := rust_clamp clip_min_x 0 screen_w
  let clip_min_y := rust_clamp clip_min_y 0 screen_h
  let clip_max_x := rust_clamp clip_max_x clip_min_x screen_w
  let clip_max_y := rust_clamp clip_max_y clip_min_y screen_h
  let clip_min_x := rust_round clip_min_x
  let clip_min_y := rust_round clip_min_y
  let clip_max_x := rust_round clip_max_x
  let clip_max_y := rust_round clip_max_y
  (clip_min_x, (canvas_height : ℤ) - clip_max_y,
    clip_max_x - clip_min_x, clip_max_y - clip_min_y)

/-! ## Association-list registry (model of std HashMap) -/

/-- HashMap get. -/
def lookup_tex {α : Type} : List (TextureId × α) → TextureId → Option α
  | [], _ => none
  | (k, v) :: rest, key => if k = key then some v else lookup_tex rest key

/-- HashMap insert: replace in place when the key exists, append
otherwise; also returns the previous value, as the source insert does. -/
def insert_tex {α : Type} : List (TextureId × α) → TextureId → α →
    List (TextureId × α) × Option α
  | [], key, value => ([(key, value)], none)
  | (k, v) :: rest, key, value =>
      if k = key then ((k, value) :: rest, some v)
      else
        let (rest', previous) := insert_tex rest key value
        ((k, v) :: rest', previous)

/-- HashMap remove, also returning the removed value. -/
def remove_tex {α : Type} : List (TextureId × α) → TextureId →
    List (TextureId × α) × Option α
  | [], _ => ([], none)
  | (k, v) :: rest, key =>
      if k = key then (rest, some v)
      else
        let (rest', removed) := remove_tex rest key
        ((k, v) :: rest', removed)

/-- HashMap get_mut followed by a field update. -/
def modify_tex {α : Type} : List (TextureId × α) → TextureId → (α → α) →
    List (TextureId × α)
  | [], _, _ => []
  | (k, v) :: rest, key, f =>
      if k = key then (k, f v) :: rest
      else (k, v) :: modify_tex rest key f

/-! ## Painter (src/painter.rs) -/

namespace Painter

/-- src/painter.rs UserTexture. -/
structure UserTexture where
  size : ℕ × ℕ
  pixels : PixelData
  gl_texture_id : Option ℕ
  filtering : TextureFilter
  dirty : Bool
deriving DecidableEq

/-- src/painter.rs UserTexture::from_raw. -/
def UserTexture.from_raw (id : ℕ) : UserTexture :=
  { size := (0, 0)
    gl_texture_id := some id
    filtering := TextureFilter.Linear
    dirty := false
    pixels := PixelData.colorBytes [] }

/-- src/painter.rs UserTexture::delete: deletes the GL texture when the
id is present. -/
def UserTexture.delete (t : UserTexture) : List Action :=
  match t.gl_texture_id with
  | some id => [Action.glDeleteTexture id]
  | none => []

/-- src/painter.rs UserTexture::update_texture_part: asserts the region
fits, issues the sub-upload (no bind of the target texture is performed
by the source), and sets dirty.  Offsets and extents are i32 there. -/
def UserTexture.update_texture_part (t : UserTexture)
    (x_offset y_offset width height : ℤ) (bytes : PixelData) :
    Except String (UserTexture × List Action) :=
  if x_offset + width ≤ (t.size.1 : ℤ) then
    if y_offset + height ≤ (t.size.2 : ℤ) then
      Except.ok ({ t with dirty := true },
        [Action.glPixelStoreUnpackAlignment1,
         Action.glTexSwizzleA,
         Action.glTexSubImage2D x_offset y_offset width height bytes])
    else Except.error "assertion failed: y_offset + height <= self.size.1"
  else Except.error "assertion failed: x_offset + width <= self.size.0"

/-- src/painter.rs Painter state: the registry plus the canvas size.
next_gl_name models the GL texture-name supply consumed by
glGenTextures (names are fresh and nonzero). -/
structure State where
  canvas_width : ℕ
  canvas_height : ℕ
  textures : List (TextureId × UserTexture)
  next_gl_name : ℕ
deriving DecidableEq

/-- src/painter.rs Painter::set_size. -/
def set_size (p : State) (w h : ℕ) : State :=
  { p with canvas_width := w, canvas_height := h }

/-- src/painter.rs Painter::new_opengl_texture: wraps an external GL
name under id User(map size). -/
def new_opengl_texture (p : State) (opengl_id : ℕ) : TextureId × State :=
  let id := TextureId.User p.textures.length
  let (textures', _) := insert_tex p.textures id (UserTexture.from_raw opengl_id)
  (id, { p with textures := textures' })

/-- src/painter.rs Painter::new_user_texture: asserts the texel count,
then inserts a dirty unrealised texture under id User(map size). -/
def new_user_texture (p : State) (size : ℕ × ℕ) (srgba_pixels : List Color32)
    (filtering : TextureFilter) : Except String (TextureId × State) :=
  if size.1 * size.2 = srgba_pixels.length then
    let id := TextureId.User p.textures.length
    let texture : UserTexture :=
      { size := size
        pixels := PixelData.colorBytes srgba_pixels
        gl_texture_id := none
        filtering := filtering
        dirty := true }
    let (textures', _) := insert_tex p.textures id texture
    Except.ok (id, { p with textures := textures' })
  else Except.error "assertion failed: size.0 * size.1 == srgba_pixels.len()"

/-- src/painter.rs Painter::update_user_texture_data: fails only when
the id is unknown; replaces the pixels and sets dirty with no check of
the pixel count against the stored size. -/
def update_user_texture_data (p : State) (texture_id : TextureId)
    (pixels : List Color32) : Except String State :=
  match lookup_tex p.textures texture_id with
  | none => Except.error "Texture with id has not been created"
  | some _ =>
      Except.ok { p with
        textures := modify_tex p.textures texture_id fun t =>
          { t with pixels := PixelData.colorBytes pixels, dirty := true } }

/-- src/painter.rs Painter::set_texture.  With a position: look up the
texture (printing a diagnostic and doing nothing when absent), convert
the image — a font image through srgba_pixels with gamma Some(1.0) — and
sub-upload.  Without a position: stage a new dirty unrealised texture
(again gamma Some(1.0) for fonts) and delete any replaced entry at once. -/
def set_texture (p : State) (tex_id : TextureId) (delta : ImageDelta) :
    Except String (State × List Action) :=
  let (w, h) := delta.image.size
  match delta.pos with
  | some (x, y) =>
      match lookup_tex p.textures tex_id with
      | some texture =>
          match delta.image with
          | ImageData.Color iw ih pixels =>
              if iw * ih = pixels.length then
                let data := PixelData.colorBytes pixels
                match texture.update_texture_part x y w h data with
                | Except.ok (texture', actions) =>
                    Except.ok ({ p with
                      textures := modify_tex p.textures tex_id fun _ => texture' },
                      actions)
                | Except.error e => Except.error e
              else Except.error "Mismatch between texture size and texel count"
          | ImageData.Font iw ih coverage =>
              if iw * ih = coverage then
                let data := PixelData.fontBytes 1 coverage
                match texture.update_texture_part x y w h data with
                | Except.ok (texture', actions) =>
                    Except.ok ({ p with
                      textures := modify_tex p.textures tex_id fun _ => texture' },
                      actions)
                | Except.error e => Except.error e
              else Except.error "Mismatch between texture size and texel count"
      | none =>
          Except.ok (p, [Action.diag "Failed to find egui texture"])
  | none =>
      let staged : Except String UserTexture :=
        match delta.image with
        | ImageData.Color iw ih pixels =>
            if iw * ih = pixels.length then
              Except.ok
                { size := (w, h)
                  pixels := PixelData.colorBytes pixels
                  gl_texture_id := none
                  filtering := TextureFilter.Linear
                  dirty := true }
            else Except.error "Mismatch between texture size and texel count"
        | ImageData.Font iw ih coverage =>
            if iw * ih = coverage then
              Except.ok
                { size := (w, h)
                  pixels := PixelData.fontBytes 1 coverage
                  gl_texture_id := none
                  filtering := TextureFilter.Linear
                  dirty := true }
            else Except.error "Mismatch between texture size and texel count"
      match staged with
      | Except.ok texture =>
          let (textures', previous) := insert_tex p.textures tex_id texture
          let actions :=
            match previous with
            | some prev => prev.delete
            | none => []
          Except.ok ({ p with textures := textures' }, actions)
      | Except.error e => Except.error e

/-- One step of src/painter.rs Painter::upload_user_textures: skip
entries that are realised and clean; otherwise take the pending pixels,
bind (generating a name, wrap and filter parameters on first use),
upload the full image with internal format GL_RGBA when the taken buffer
is nonempty, and clear dirty. -/
def upload_one (next_gl_name : ℕ) (t : UserTexture) :
    ℕ × UserTexture × List Action :=
  if t.gl_texture_id.isNone || t.dirty then
    let pixels := t.pixels
    let t := { t with pixels := PixelData.colorBytes [] }
    let (next', t', bind_actions) :=
      match t.gl_texture_id with
      | some texture => (next_gl_name, t, [Action.glBindTexture texture])
      | none =>
          let gl_texture := next_gl_name
          let filter_actions :=
            match t.filtering with
            | TextureFilter.Nearest =>
                [Action.glTexParameterMinFilter TextureFilter.Nearest,
                 Action.glTexParameterMagFilter TextureFilter.Nearest]
            | TextureFilter.Linear =>
                [Action.glTexParameterMinFilter TextureFilter.Linear,
                 Action.glTexParameterMagFilter TextureFilter.Linear]
          (next_gl_name + 1,
           { t with gl_texture_id := some gl_texture },
           [Action.glGenTexture gl_texture,
            Action.glBindTexture gl_texture,
            Action.glTexParameterWrapS TextureWrapMode.ClampToEdge,
            Action.glTexParameterWrapT TextureWrapMode.ClampToEdge] ++ filter_actions)
    let upload_actions :=
      if pixels.is_empty then []
      else [Action.glTexImage2D InternalFormat.Rgba t.size.1 t.size.2 pixels]
    (next', { t' with dirty := false }, bind_actions ++ upload_actions)
  else (next_gl_name, t, [])

/-- src/painter.rs Painter::upload_user_textures over the whole registry
in entry order. -/
def upload_walk (next_gl_name : ℕ) :
    List (TextureId × UserTexture) →
    ℕ × List (TextureId × UserTexture) × List Action
  | [] => (next_gl_name, [], [])
  | (k, t) :: rest =>
      let (next', t', actions) := upload_one next_gl_name t
      let (next'', rest', actions') := upload_walk next' rest
      (next'', (k, t') :: rest', actions ++ actions')

/-- src/painter.rs Painter::upload_user_textures. -/
def upload_user_textures (p : State) : State × List Action :=
  let (next', textures', actions) := upload_walk p.next_gl_name p.textures
  ({ p with textures := textures', next_gl_name := next' }, actions)

/-- The interleaved-to-planar vertex split of src/painter.rs paint_mesh:
positions, texture coordinates and colours as three flat lists. -/
def planar_positions (vertices : List Vertex) : List ℚ :=
  vertices.flatMap fun v => [v.pos.1, v.pos.2]

/-- Flat texture-coordinate list. -/
def planar_tex_coords (vertices : List Vertex) : List ℚ :=
  vertices.flatMap fun v => [v.uv.1, v.uv.2]

/-- Flat colour byte list. -/
def planar_colors (vertices : List Vertex) : List ℕ :=
  vertices.flatMap fun v => [v.color.r, v.color.g, v.color.b, v.color.a]

/-- src/painter.rs Painter::paint_mesh.  An unknown texture id is
silently skipped; a known but unrealised texture fails the expect on the
GL id.  Indices are narrowed u32 -> u16 by a plain `as` cast, written
here as a modulus by 65536. -/
def paint_mesh (p : State) (mesh : Mesh) (clip_rect : Rect)
    (pixels_per_point : ℚ) : Except String (List Action) :=
  match lookup_tex p.textures mesh.texture_id with
  | none => Except.ok []
  | some it =>
      match it.gl_texture_id with
      | none => Except.error "Texture should have a valid OpenGL id now"
      | some gl_name =>
          let (sx, sy, sw, sh) :=
            compute_scissor p.canvas_width p.canvas_height pixels_per_point clip_rect
          let indices : List ℕ := mesh.indices.map fun idx => idx % 65536
          let indices_len := indices.length
          Except.ok
            ([Action.glBindTexture gl_name,
              Action.glScissor sx sy sw sh,
              Action.glBindVertexArray,
              Action.glBufferIndexData indices,
              Action.glBufferPosData (planar_positions mesh.vertices),
              Action.glEnableAttribByName "a_pos",
              Action.glBufferTcData (planar_tex_coords mesh.vertices),
              Action.glEnableAttribByName "a_tc",
              Action.glBufferColorData (planar_colors mesh.vertices),
              Action.glEnableAttribByName "a_srgba",
              Action.glDrawElements indices_len,
              Action.glDisableAttribByName "a_pos",
              Action.glDisableAttribByName "a_tc",
              Action.glDisableAttribByName "a_srgba"])

/-- The body of the primitive loop of src/painter.rs paint_primitives:
paint a mesh and then disable the scissor test (the disable sits inside
the loop in this source file); fail on a callback primitive. -/
def paint_one (p : State) (pixels_per_point : ℚ) (cp : ClippedPrimitive) :
    Except String (List Action) :=
  match cp.primitive with
  | Primitive.Mesh mesh =>
      match paint_mesh p mesh cp.clip_rect pixels_per_point with
      | Except.ok actions =>
          Except.ok (actions ++ [Action.glDisable GLCap.ScissorTest])
      | Except.error e => Except.error e
  | Primitive.Callback =>
      Except.error "Custom rendering callbacks are not implemented in egui_glium"

/-- The primitive loop of src/painter.rs paint_primitives, in list
order. -/
def paint_loop (p : State) (pixels_per_point : ℚ) :
    List ClippedPrimitive → Except String (List Action)
  | [] => Except.ok []
  | cp :: rest =>
      match paint_one p pixels_per_point cp with
      | Except.ok actions =>
          match paint_loop p pixels_per_point rest with
          | Except.ok actions' => Except.ok (actions ++ actions')
          | Except.error e => Except.error e
      | Except.error e => Except.error e

/-- The frame-level GL state set by src/painter.rs paint_primitives
before the primitive loop. -/
def frame_setup (p : State) (pixels_per_point : ℚ) : List Action :=
  [Action.glEnable GLCap.FramebufferSrgb,
   Action.glEnable GLCap.ScissorTest,
   Action.glEnable GLCap.Blend,
   Action.glBlendFuncPremultipliedAlpha,
   Action.glUseProgram,
   Action.glActiveTexture0,
   Action.glUniformScreenSize ((p.canvas_width : ℚ) / pixels_per_point)
     ((p.canvas_height : ℚ) / pixels_per_point),
   Action.glUniformSampler0,
   Action.glViewport p.canvas_width p.canvas_height]

/-- src/painter.rs Painter::paint_primitives: upload user textures, set
the frame GL state, run the primitive loop, then disable the sRGB
framebuffer. -/
def paint_primitives (p : State) (pixels_per_point : ℚ)
    (clipped_primitives : List ClippedPrimitive) :
    Except String (State × List Action) :=
  let (p', upload_actions) := upload_user_textures p
  match paint_loop p' pixels_per_point clipped_primitives with
  | Except.ok loop_actions =>
      Except.ok (p',
        upload_actions ++ frame_setup p' pixels_per_point ++ loop_actions
          ++ [Action.glDisable GLCap.FramebufferSrgb])
  | Except.error e => Except.error e

/-- src/painter.rs Painter::free_texture: remove the entry and delete
its GL texture; unknown ids are a no-op. -/
def free_texture (p : State) (tex_id : TextureId) : State × List Action :=
  let (textures', removed) := remove_tex p.textures tex_id
  let actions :=
    match removed with
    | some old_tex => old_tex.delete
    | none => []
  ({ p with textures := textures' }, actions)

/-- The set-delta loop of src/painter.rs paint_and_update_textures, in
list order. -/
def set_loop (p : State) :
    List (TextureId × ImageDelta) → Except String (State × List Action)
  | [] => Except.ok (p, [])
  | (id, image_delta) :: rest =>
      match set_texture p id image_delta with
      | Except.ok (p', actions) =>
          match set_loop p' rest with
          | Except.ok (p'', actions') => Except.ok (p'', actions ++ actions')
          | Except.error e => Except.error e
      | Except.error e => Except.error e

/-- The free loop of src/painter.rs paint_and_update_textures, in list
order. -/
def free_loop (p : State) : List TextureId → State × List Action
  | [] => (p, [])
  | id :: rest =>
      let (p', actions) := free_texture p id
      let (p'', actions') := free_loop p' rest
      (p'', actions ++ actions')

/-- src/painter.rs Painter::paint_and_update_textures: apply the set
deltas, paint (which uploads user textures first), then free. -/
def paint_and_update_textures (p : State) (pixels_per_point : ℚ)
    (clipped_primitives : List ClippedPrimitive)
    (textures_delta : TexturesDelta) :
    Except String (State × List Action) :=
  match set_loop p textures_delta.set with
  | Except.ok (p1, set_actions) =>
      match paint_primitives p1 pixels_per_point clipped_primitives with
      | Except.ok (p2, paint_actions) =>
          let (p3, free_actions) := free_loop p2 textures_delta.free
          Except.ok (p3, set_actions ++ paint_actions ++ free_actions)
      | Except.error e => Except.error e
  | Except.error e => Except.error e

end Painter

/-! ## GuiTexture (src/gui/ui_texture.rs) -/

/-- src/gui/ui_texture.rs GuiTexture.  texture_id = 0 means not yet
created. -/
structure GuiTexture where
  texture_id : ℕ
  options : TextureOptions
  size : ℕ × ℕ
  pixels : PixelData
  dirty : Bool
deriving DecidableEq

namespace GuiTexture

/-- src/gui/ui_texture.rs GuiTexture::new. -/
def new (texture_id : ℕ) (options : TextureOptions) (size : ℕ × ℕ)
    (pixels : PixelData) (dirty : Bool) : GuiTexture :=
  { texture_id := texture_id
    options := options
    size := size
    pixels := pixels
    dirty := dirty }

/-- src/gui/ui_texture.rs GuiTexture::gen_tex_and_bind: asserts the
texture is not yet created, generates a fresh name (fresh GL names are
nonzero; the supply starts at 1), binds it and applies the wrap and
filter options.  Returns the advanced name supply. -/
def gen_tex_and_bind (next_gl_name : ℕ) (t : GuiTexture) :
    Except String (ℕ × GuiTexture × List Action) :=
  if t.texture_id = 0 then
    let gl_name := next_gl_name
    Except.ok (next_gl_name + 1, { t with texture_id := gl_name },
      [Action.glGenTexture gl_name,
       Action.glBindTexture gl_name,
       Action.glTexParameterWrapS t.options.wrap_mode,
       Action.glTexParameterWrapT t.options.wrap_mode,
       Action.glTexParameterMinFilter t.options.minification,
       Action.glTexParameterMagFilter t.options.magnification])
  else Except.error "assertion failed: texture_id == 0"

/-- src/gui/ui_texture.rs GuiTexture::upload: asserts the texture is
created, binds it, issues a full glTexImage2D with internal format
GL_SRGB8_ALPHA8, and unbinds. -/
def upload (t : GuiTexture) (data : PixelData) : Except String (List Action) :=
  if t.texture_id = 0 then
    Except.error "assertion failed: texture_id != 0"
  else
    Except.ok
      [Action.glBindTexture t.texture_id,
       Action.glTexImage2D InternalFormat.Srgb8Alpha8 t.size.1 t.size.2 data,
       Action.glBindTexture 0]

/-- src/gui/ui_texture.rs GuiTexture::upload_sub: asserts the texture is
created, binds it, issues the sub-region upload, and unbinds. -/
def upload_sub (t : GuiTexture) (x_offset y_offset width height : ℕ)
    (data : PixelData) : Except String (List Action) :=
  if t.texture_id = 0 then
    Except.error "assertion failed: texture_id != 0"
  else
    Except.ok
      [Action.glBindTexture t.texture_id,
       Action.glTexSubImage2D x_offset y_offset width height data,
       Action.glBindTexture 0]

/-- src/gui/ui_texture.rs GuiTexture::free. -/
def free (t : GuiTexture) : List Action :=
  if t.texture_id ≠ 0 then [Action.glDeleteTexture t.texture_id] else []

end GuiTexture

/-! ## GuiRender (src/gui/ui_render.rs) -/

namespace GuiRender

/-- src/gui/ui_render.rs GuiRender state (registry, canvas size, GL
texture-name supply). -/
structure State where
  canvas_width : ℕ
  canvas_height : ℕ
  textures : List (TextureId × GuiTexture)
  next_gl_name : ℕ
deriving DecidableEq

/-- src/gui/ui_render.rs GuiRender::set_size. -/
def set_size (g : State) (width height : ℕ) : State :=
  { g with canvas_width := width, canvas_height := height }

/-- src/gui/ui_render.rs GuiRender::new_texture: asserts the texel
count, then inserts a dirty uncreated texture under id User(map size). -/
def new_texture (g : State) (size : ℕ × ℕ) (srgba_pixels : List Color32)
    (options : TextureOptions) : Except String (TextureId × State) :=
  if size.1 * size.2 = srgba_pixels.length then
    let id := TextureId.User g.textures.length
    let texture :=
      GuiTexture.new 0 options (size.1, size.2)
        (PixelData.colorBytes srgba_pixels) true
    let (textures', _) := insert_tex g.textures id texture
    Except.ok (id, { g with textures := textures' })
  else Except.error "assertion failed: size.0 * size.1 == srgba_pixels.len()"

/-- src/gui/ui_render.rs GuiRender::update_texture: fails only when the
id is unknown; replaces the pixels and sets dirty with no check of the
pixel count against the stored size. -/
def update_texture (g : State) (texture_id : TextureId)
    (pixels : List Color32) : Except String State :=
  match lookup_tex g.textures texture_id with
  | none => Except.error "Texture with id has not been created"
  | some _ =>
      Except.ok { g with
        textures := modify_tex g.textures texture_id fun t =>
          { t with pixels := PixelData.colorBytes pixels, dirty := true } }

/-- src/gui/ui_render.rs GuiRender::upload_egui_texture.  The payload is
computed before branching on the position: colour images are flattened
(with the texel-count assertion), font images go through
srgba_pixels(Some(0.4)).  With a position the existing texture is
required and the region asserted to fit; without one a fresh texture is
created, bound and uploaded at once, and a replaced entry is freed. -/
def upload_egui_texture (g : State) (id : TextureId) (delta : ImageDelta) :
    Except String (State × List Action) :=
  let (texture_width, texture_height) := delta.image.size
  let data_or_err : Except String PixelData :=
    match delta.image with
    | ImageData.Color iw ih pixels =>
        if iw * ih = pixels.length then
          Except.ok (PixelData.colorBytes pixels)
        else Except.error "Mismatch between texture size and texel count"
    | ImageData.Font _ _ coverage =>
        Except.ok (PixelData.fontBytes (4/10) coverage)
  match data_or_err with
  | Except.error e => Except.error e
  | Except.ok data =>
      match delta.pos with
      | some (x_offset, y_offset) =>
          match lookup_tex g.textures id with
          | none => Except.error "Texture not found."
          | some texture =>
              if x_offset + texture_width ≤ texture.size.1 then
                if y_offset + texture_height ≤ texture.size.2 then
                  match GuiTexture.upload_sub texture x_offset y_offset
                      texture_width texture_height data with
                  | Except.ok actions => Except.ok (g, actions)
                  | Except.error e => Except.error e
                else Except.error "assertion failed: y_offset + texture_height <= size[1]"
              else Except.error "assertion failed: x_offset + texture_width <= size[0]"
      | none =>
          let texture :=
            GuiTexture.new 0 delta.options (texture_width, texture_height)
              (PixelData.colorBytes []) false
          match GuiTexture.gen_tex_and_bind g.next_gl_name texture with
          | Except.error e => Except.error e
          | Except.ok (next', texture, gen_actions) =>
              match GuiTexture.upload texture data with
              | Except.error e => Except.error e
              | Except.ok upload_actions =>
                  let (textures', previous) := insert_tex g.textures id texture
                  let free_actions :=
                    match previous with
                    | some old_texture => old_texture.free
                    | none => []
                  Except.ok
                    ({ g with textures := textures', next_gl_name := next' },
                      gen_actions ++ upload_actions ++ free_actions)

/-- One step of src/gui/ui_render.rs GuiRender::upload_custom_texture:
skip clean entries; otherwise create the GL texture when missing, take
the pending pixels, upload them (unconditionally), and clear dirty. -/
def upload_custom_one (next_gl_name : ℕ) (t : GuiTexture) :
    Except String (ℕ × GuiTexture × List Action) :=
  if !t.dirty then Except.ok (next_gl_name, t, [])
  else
    match
      (if t.texture_id = 0 then GuiTexture.gen_tex_and_bind next_gl_name t
       else Except.ok (next_gl_name, t, [])) with
    | Except.error e => Except.error e
    | Except.ok (next', t, gen_actions) =>
        let data := t.pixels
        let t := { t with pixels := PixelData.colorBytes [] }
        match GuiTexture.upload t data with
        | Except.error e => Except.error e
        | Except.ok upload_actions =>
            Except.ok (next', { t with dirty := false },
              gen_actions ++ upload_actions)

/-- src/gui/ui_render.rs GuiRender::upload_custom_texture over the whole
registry in entry order. -/
def upload_custom_walk (next_gl_name : ℕ) :
    List (TextureId × GuiTexture) →
    Except String (ℕ × List (TextureId × GuiTexture) × List Action)
  | [] => Except.ok (next_gl_name, [], [])
  | (k, t) :: rest =>
      match upload_custom_one next_gl_name t with
      | Except.error e => Except.error e
      | Except.ok (next', t', actions) =>
          match upload_custom_walk next' rest with
          | Except.error e => Except.error e
          | Except.ok (next'', rest', actions') =>
              Except.ok (next'', (k, t') :: rest', actions ++ actions')

/-- src/gui/ui_render.rs GuiRender::upload_custom_texture. -/
def upload_custom_texture (g : State) : Except String (State × List Action) :=
  match upload_custom_walk g.next_gl_name g.textures with
  | Except.error e => Except.error e
  | Except.ok (next', textures', actions) =>
      Except.ok ({ g with textures := textures', next_gl_name := next' }, actions)

/-- src/gui/ui_render.rs GuiRender::free_texture. -/
def free_texture (g : State) (id : TextureId) : State × List Action :=
  let (textures', removed) := remove_tex g.textures id
  let actions :=
    match removed with
    | some old_tex => old_tex.free
    | none => []
  ({ g with textures := textures' }, actions)

/-- src/gui/ui_render.rs GuiRender::paint_mesh.  An unknown texture id
is silently skipped; otherwise the stored GL name is bound as is.
Vertices are interleaved into one buffer; indices are narrowed
u32 -> u16 by a plain `as` cast, written here as a modulus by 65536. -/
def paint_mesh (g : State) (mesh : Mesh) (clip_rect : Rect)
    (pixels_per_point : ℚ) : List Action :=
  match lookup_tex g.textures mesh.texture_id with
  | none => []
  | some texture =>
      let (sx, sy, sw, sh) :=
        compute_scissor g.canvas_width g.canvas_height pixels_per_point clip_rect
      let indices : List ℕ := mesh.indices.map fun idx => idx % 65536
      [Action.glBindTexture texture.texture_id,
       Action.glScissor sx sy sw sh,
       Action.glBindVertexArray,
       Action.glBufferInterleavedVertexData mesh.vertices,
       Action.glBufferIndexData indices,
       Action.glEnableAttribAt 0,
       Action.glEnableAttribAt 1,
       Action.glEnableAttribAt 2,
       Action.glDrawElements indices.length,
       Action.glDisableAttribAt 0,
       Action.glDisableAttribAt 1,
       Action.glDisableAttribAt 2]

/-- The body of the primitive loop of src/gui/ui_render.rs paint (no
per-mesh scissor disable in this source file); fail on a callback. -/
def paint_one (g : State) (pixels_per_point : ℚ) (cp : ClippedPrimitive) :
    Except String (List Action) :=
  match cp.primitive with
  | Primitive.Mesh mesh =>
      Except.ok (paint_mesh g mesh cp.clip_rect pixels_per_point)
  | Primitive.Callback =>
      Except.error "Custom rendering callbacks are not implemented in egui_glium"

/-- The primitive loop of src/gui/ui_render.rs paint, in list order. -/
def paint_loop (g : State) (pixels_per_point : ℚ) :
    List ClippedPrimitive → Except String (List Action)
  | [] => Except.ok []
  | cp :: rest =>
      match paint_one g pixels_per_point cp with
      | Except.ok actions =>
          match paint_loop g pixels_per_point rest with
          | Except.ok actions' => Except.ok (actions ++ actions')
          | Except.error e => Except.error e
      | Except.error e => Except.error e

/-- The frame-level GL state set by src/gui/ui_render.rs paint before
the primitive loop (scissor test on, shader attached, texture unit 0,
uniforms, viewport). -/
def frame_setup (g : State) (pixels_per_point : ℚ) : List Action :=
  [Action.glEnable GLCap.ScissorTest,
   Action.glUseProgram,
   Action.glActiveTexture0,
   Action.glUniformScreenSize ((g.canvas_width : ℚ) / pixels_per_point)
     ((g.canvas_height : ℚ) / pixels_per_point),
   Action.glUniformSampler0,
   Action.glViewport g.canvas_width g.canvas_height]

/-- src/gui/ui_render.rs GuiRender::paint: frame setup, the primitive
loop, then a single scissor-test disable after the last primitive. -/
def paint (g : State) (pixels_per_point : ℚ)
    (clipped_primitives : List ClippedPrimitive) :
    Except String (List Action) :=
  match paint_loop g pixels_per_point clipped_primitives with
  | Except.ok loop_actions =>
      Except.ok (frame_setup g pixels_per_point ++ loop_actions
        ++ [Action.glDisable GLCap.ScissorTest])
  | Except.error e => Except.error e

/-- The set-delta loop of src/gui/ui_render.rs render, in list order. -/
def set_loop (g : State) :
    List (TextureId × ImageDelta) → Except String (State × List Action)
  | [] => Except.ok (g, [])
  | (id, image_delta) :: rest =>
      match upload_egui_texture g id image_delta with
      | Except.ok (g', actions) =>
          match set_loop g' rest with
          | Except.ok (g'', actions') => Except.ok (g'', actions ++ actions')
          | Except.error e => Except.error e
      | Except.error e => Except.error e

/-- The free loop of src/gui/ui_render.rs render, in list order. -/
def free_loop (g : State) : List TextureId → State × List Action
  | [] => (g, [])
  | id :: rest =>
      let (g', actions) := free_texture g id
      let (g'', actions') := free_loop g' rest
      (g'', actions ++ actions')

/-- src/gui/ui_render.rs GuiRender::render: apply the set deltas, upload
custom textures, paint, then free. -/
def render (g : State) (pixels_per_point : ℚ)
    (clipped_primitives : List ClippedPrimitive)
    (textures_delta : TexturesDelta) :
    Except String (State × List Action) :=
  match set_loop g textures_delta.set with
  | Except.ok (g1, set_actions) =>
      match upload_custom_texture g1 with
      | Except.ok (g2, upload_actions) =>
          match paint g2 pixels_per_point clipped_primitives with
          | Except.ok paint_actions =>
              let (g3, free_actions) := free_loop g2 textures_delta.free
              Except.ok (g3,
                set_actions ++ upload_actions ++ paint_actions ++ free_actions)
          | Except.error e => Except.error e
      | Except.error e => Except.error e
  | Except.error e => Except.error e

end GuiRender

/-! ## Definitions for the claim statements -/

/-- The scissor rectangle as the specification words it: x and y from the
rounded clamped corners, but width and height rounded from the scaled
logical extent of the clip rectangle.  Written from the claim text, to be
compared against compute_scissor, which is written from the source. -/
def scissor_rect_spec (canvas_width canvas_height : ℕ) (pixels_per_point : ℚ)
    (clip_rect : Rect) : ℤ × ℤ × ℤ × ℤ :=
  let screen_w : ℚ := canvas_width
  let screen_h : ℚ := canvas_height
  let clip_min_x := max 0 (min (pixels_per_point * clip_rect.min_x) screen_w)
  let clip_min_y := max 0 (min (pixels_per_point * clip_rect.min_y) screen_h)
  let clip_max_y := max clip_min_y (min (pixels_per_point * clip_rect.max_y) screen_h)
  (rust_round clip_min_x,
   (canvas_height : ℤ) - rust_round clip_max_y,
   rust_round (pixels_per_point * (clip_rect.max_x - clip_rect.min_x)),
   rust_round (pixels_per_point * (clip_rect.max_y - clip_rect.min_y)))

/-- Clipboard-control events (Cut, Copy or Paste). -/
def EguiEvent.is_ccp : EguiEvent → Bool
  | EguiEvent.Cut => true
  | EguiEvent.Copy => true
  | EguiEvent.Paste _ => true
  | _ => false

/-- Whether a texture-id key is a user id with index below a bound
(managed ids pass vacuously). -/
def idx_lt : TextureId → ℕ → Bool
  | TextureId.User k, n => decide (k < n)
  | TextureId.Managed _, _ => true

/-- Key list of the painter registry. -/
def Painter.keys (p : Painter.State) : List TextureId :=
  p.textures.map Prod.fst

/-- Every user-texture index in the registry is below the entry count.
This holds for every registry built without frees and is the premiss
under which len-based allocation is actually fresh. -/
def Painter.user_indices_bounded (p : Painter.State) : Prop :=
  ∀ e ∈ p.textures, idx_lt e.1 p.textures.length = true

/-- A user-texture allocation request (arguments of new_user_texture). -/
structure AllocReq where
  size : ℕ × ℕ
  pixels : List Color32
  filtering : TextureFilter
deriving DecidableEq

/-- A registry operation: allocate a user texture or free an id. -/
inductive RegOp
  | alloc (req : AllocReq)
  | free (id : TextureId)
deriving DecidableEq

/-- Run a sequence of registry operations on the painter, collecting the
identifiers returned by the allocations in order. -/
def Painter.run_ops (p : Painter.State) :
    List RegOp → Except String (Painter.State × List TextureId)
  | [] => Except.ok (p, [])
  | RegOp.alloc req :: rest =>
      match Painter.new_user_texture p req.size req.pixels req.filtering with
      | Except.ok (id, p') =>
          match Painter.run_ops p' rest with
          | Except.ok (p'', ids) => Except.ok (p'', id :: ids)
          | Except.error e => Except.error e
      | Except.error e => Except.error e
  | RegOp.free id :: rest =>
      let (p', _) := Painter.free_texture p id
      Painter.run_ops p' rest

/-- An allocation-only run (no frees), collecting states and ids. -/
def Painter.alloc_run (p : Painter.State) :
    List AllocReq → Except String (Painter.State × List TextureId)
  | [] => Except.ok (p, [])
  | req :: rest =>
      match Painter.new_user_texture p req.size req.pixels req.filtering with
      | Except.ok (id, p') =>
          match Painter.alloc_run p' rest with
          | Except.ok (p'', ids) => Except.ok (p'', id :: ids)
          | Except.error e => Except.error e
      | Except.error e => Except.error e

/-! ## Concrete fixtures for witnesses and counterexamples -/

namespace Fixtures

/-- Linear filtering, clamp-to-edge wrapping. -/
def opts0 : TextureOptions :=
  { magnification := TextureFilter.Linear
    minification := TextureFilter.Linear
    wrap_mode := TextureWrapMode.ClampToEdge }

/-- An opaque white pixel. -/
def white : Color32 := ⟨255, 255, 255, 255⟩

/-- A realised, clean painter texture under GL name 7. -/
def ptex_realized : Painter.UserTexture :=
  { size := (1, 1)
    pixels := PixelData.colorBytes []
    gl_texture_id := some 7
    filtering := TextureFilter.Linear
    dirty := false }

/-- A dirty, unrealised painter texture holding one white pixel. -/
def ptex_dirty : Painter.UserTexture :=
  { size := (1, 1)
    pixels := PixelData.colorBytes [white]
    gl_texture_id := none
    filtering := TextureFilter.Linear
    dirty := true }

/-- A painter whose registry holds one realised texture under User 0. -/
def pstate_realized : Painter.State :=
  { canvas_width := 800
    canvas_height := 600
    textures := [(TextureId.User 0, ptex_realized)]
    next_gl_name := 1 }

/-- A painter whose registry holds one dirty unrealised texture. -/
def pstate_dirty : Painter.State :=
  { canvas_width := 800
    canvas_height := 600
    textures := [(TextureId.User 0, ptex_dirty)]
    next_gl_name := 1 }

/-- An empty painter. -/
def pstate_empty : Painter.State :=
  { canvas_width := 800
    canvas_height := 600
    textures := []
    next_gl_name := 1 }

/-- A degenerate vertex. -/
def v0 : Vertex := ⟨(0, 0), (0, 0), white⟩

/-- A one-triangle mesh over User 0. -/
def mesh0 : Mesh :=
  { texture_id := TextureId.User 0
    vertices := [v0, v0, v0]
    indices := [0, 1, 2] }

/-- A mesh whose index list references vertex 65536. -/
def mesh_big : Mesh :=
  { texture_id := TextureId.User 0
    vertices := [v0, v0, v0]
    indices := [0, 65536, 65537] }

/-- A unit clip rectangle. -/
def clip0 : Rect := ⟨0, 0, 10, 10⟩

/-- Two mesh primitives in one frame. -/
def prims2 : List ClippedPrimitive :=
  [⟨clip0, Primitive.Mesh mesh0⟩, ⟨clip0, Primitive.Mesh mesh0⟩]

/-- A realised, clean GuiTexture under GL name 7. -/
def gtex_realized : GuiTexture :=
  { texture_id := 7
    options := opts0
    size := (1, 1)
    pixels := PixelData.colorBytes []
    dirty := false }

/-- A gui renderer whose registry holds one realised texture. -/
def gstate_realized : GuiRender.State :=
  { canvas_width := 800
    canvas_height := 600
    textures := [(TextureId.User 0, gtex_realized)]
    next_gl_name := 1 }

/-- An empty gui renderer. -/
def gstate_empty : GuiRender.State :=
  { canvas_width := 800
    canvas_height := 600
    textures := []
    next_gl_name := 1 }

/-- A full-image font delta (pos absent) of one coverage sample. -/
def font_delta_full : ImageDelta :=
  { image := ImageData.Font 1 1 1
    options := opts0
    pos := none }

/-- A sub-region font delta (pos present) of one coverage sample. -/
def font_delta_sub : ImageDelta :=
  { image := ImageData.Font 1 1 1
    options := opts0
    pos := some (0, 0) }

/-- An allocation request for a 1 by 1 texture. -/
def req1 : AllocReq :=
  { size := (1, 1)
    pixels := [white]
    filtering := TextureFilter.Linear }

end Fixtures

/-- Success flag of a fallible operation. -/
def is_ok {α : Type} : Except String α → Bool
  | Except.ok _ => true
  | Except.error _ => false

namespace Fixtures

/-- The painter frame of the scissor-disable counterexample: two mesh
primitives over one realised texture. -/
def c6_result : Except String (Painter.State × List Action) :=
  Painter.paint_primitives pstate_realized 1 prims2

/-- Its GL trace. -/
def c6_trace : List Action :=
  match c6_result with
  | Except.ok (_, tr) => tr
  | Except.error _ => []

/-- A painter frame whose set delta carries one full-image font atlas. -/
def c3_result : Except String (Painter.State × List Action) :=
  Painter.paint_and_update_textures pstate_empty 1 []
    { set := [(TextureId.Managed 0, font_delta_full)], free := [] }

/-- Its GL trace. -/
def c3_trace : List Action :=
  match c3_result with
  | Except.ok (_, tr) => tr
  | Except.error _ => []

/-- Allocate, allocate, free the first id, allocate again. -/
def c5_result : Except String (Painter.State × List TextureId) :=
  Painter.run_ops pstate_empty
    [RegOp.alloc req1, RegOp.alloc req1,
     RegOp.free (TextureId.User 0), RegOp.alloc req1]

/-- The identifiers returned by the three allocations. -/
def c5_ids : List TextureId :=
  match c5_result with
  | Except.ok (_, ids) => ids
  | Except.error _ => []

/-- The texture inserted by an allocation of req1. -/
def ptex_alloc : Painter.UserTexture :=
  { size := (1, 1)
    pixels := PixelData.colorBytes [white]
    gl_texture_id := none
    filtering := TextureFilter.Linear
    dirty := true }

/-- The painter after two allocations of req1 from the empty painter. -/
def pstate_two : Painter.State :=
  { canvas_width := 800
    canvas_height := 600
    textures := [(TextureId.User 0, ptex_alloc), (TextureId.User 1, ptex_alloc)]
    next_gl_name := 1 }

end Fixtures

/-! ## Helper lemmas -/

/-- Rust clamp agrees with the max-min normal form when the bounds are
ordered. -/
lemma rust_clamp_eq_max_min (x lo hi : ℚ) (h : lo ≤ hi) :
    rust_clamp x lo hi = max lo (min x hi) := by
  unfold rust_clamp
  split_ifs with h1 h2
  · rw [max_eq_left (le_of_lt (lt_of_le_of_lt (min_le_left x hi) h1))]
  · rw [min_eq_right (le_of_lt h2), max_eq_right h]
  · rw [min_eq_left (not_lt.mp h2), max_eq_right (not_lt.mp h1)]

/-- Rust clamp stays below the upper bound when the bounds are ordered. -/
lemma rust_clamp_le (x lo hi : ℚ) (h : lo ≤ hi) : rust_clamp x lo hi ≤ hi := by
  unfold rust_clamp
  split_ifs with h1 h2
  · exact h
  · exact le_refl hi
  · exact not_lt.mp h2

/-- Looking up a freshly inserted key returns the inserted value. -/
lemma lookup_insert {α : Type} (l : List (TextureId × α)) (k : TextureId) (v : α) :
    lookup_tex (insert_tex l k v).1 k = some v := by
  induction l with
  | nil => simp [insert_tex, lookup_tex]
  | cons e rest ih =>
      obtain ⟨ek, ev⟩ := e
      by_cases hk : ek = k
      · subst hk
        simp [insert_tex, lookup_tex]
      · rcases hrec : insert_tex rest k v with ⟨rest', previous⟩
        rw [hrec] at ih
        simp only [insert_tex, hk, if_false, hrec]
        simpa [lookup_tex, hk] using ih

/-! ## C7: scroll event translation -/

/-- C7 (confirmed).  For every host scroll event the raw delta is scaled
by 50 logical points per scroll line with the x component negated, and
exactly one event is emitted, selected by the modifier state current at
the event: Zoom with exponent dy/200 when ctrl or command is held, a
horizontal Scroll (dx+dy, 0) when shift alone is held, and Scroll
(dx, dy) otherwise. -/
theorem scroll_event_translation (modifiers : Modifiers) (x_offset y_offset : ℚ) :
    handle_scroll modifiers x_offset y_offset =
      (if modifiers.ctrl || modifiers.command then
        [EguiEvent.Zoom ((50 * y_offset) / 200)]
       else if modifiers.shift then
        [EguiEvent.Scroll (-(50 * x_offset) + 50 * y_offset) 0]
       else
        [EguiEvent.Scroll (-(50 * x_offset)) (50 * y_offset)])
    ∧ (handle_scroll modifiers x_offset y_offset).length = 1 := by
  unfold handle_scroll
  constructor
  · cases hc : modifiers.ctrl || modifiers.command <;>
      cases hs : modifiers.shift <;>
        (simp [hc, hs]; ring_nf; try simp)
  · cases hc : modifiers.ctrl || modifiers.command <;>
      cases hs : modifiers.shift <;>
        simp [hc, hs]

/-! ## C2: clip rectangle to scissor conversion -/

/-- C2 counterexample.  At framebuffer 800x600, pixels-per-point 1 and
clip rectangle ((0.5, 0), (1.25, 10)) — all values exactly representable
in f32, with exact f32 arithmetic — the source computes the scissor width
as round(clamped max) - round(clamped min) = 1 - 1 = 0, while the claimed
formula round(p * R.w) gives round(0.75) = 1, so the claimed rectangle
differs from the one passed to GL. -/
theorem scissor_rect_spec_refuted :
    compute_scissor 800 600 1 ⟨1/2, 0, 5/4, 10⟩ = (1, 590, 0, 10) ∧
    scissor_rect_spec 800 600 1 ⟨1/2, 0, 5/4, 10⟩ = (1, 590, 1, 10) ∧
    compute_scissor 800 600 1 ⟨1/2, 0, 5/4, 10⟩ ≠
      scissor_rect_spec 800 600 1 ⟨1/2, 0, 5/4, 10⟩ := by
  refine ⟨by with_unfolding_all decide, by with_unfolding_all decide,
    by with_unfolding_all decide⟩

/-- C2 amended and proved.  Both paint_mesh functions pass to glScissor
the rectangle (round cminx, H - round cmaxy, round cmaxx - round cminx,
round cmaxy - round cminy), where the min corner is clamped to
[0, framebuffer size], the max corner to [min, framebuffer size], and
rounding is to the nearest integer (half away from zero); the width and
height are differences of rounded corners, not round(p * R.w) and
round(p * R.h).  On the concrete instance of the claim the two formulas
agree and the call is glScissor(20, 510, 80, 80). -/
theorem scissor_rectangle (W H : ℕ) (ppp : ℚ) (R : Rect)
    (ps : Painter.State) (gs : GuiRender.State) (mesh : Mesh)
    (it : Painter.UserTexture) (gl_name : ℕ) (gt : GuiTexture)
    (hit : lookup_tex ps.textures mesh.texture_id = some it)
    (hgl : it.gl_texture_id = some gl_name)
    (hgt : lookup_tex gs.textures mesh.texture_id = some gt) :
    (compute_scissor W H ppp R =
      (let cminx := max 0 (min (ppp * R.min_x) (W : ℚ))
       let cminy := max 0 (min (ppp * R.min_y) (H : ℚ))
       let cmaxx := max cminx (min (ppp * R.max_x) (W : ℚ))
       let cmaxy := max cminy (min (ppp * R.max_y) (H : ℚ))
       (rust_round cminx, (H : ℤ) - rust_round cmaxy,
        rust_round cmaxx - rust_round cminx,
        rust_round cmaxy - rust_round cminy)))
    ∧ compute_scissor 800 600 2 ⟨10, 5, 50, 45⟩ = (20, 510, 80, 80)
    ∧ (∃ tr, Painter.paint_mesh ps mesh R ppp = Except.ok tr ∧
        (let s := compute_scissor ps.canvas_width ps.canvas_height ppp R
         Action.glScissor s.1 s.2.1 s.2.2.1 s.2.2.2 ∈ tr))
    ∧ (let s := compute_scissor gs.canvas_width gs.canvas_height ppp R
       Action.glScissor s.1 s.2.1 s.2.2.1 s.2.2.2 ∈
         GuiRender.paint_mesh gs mesh R ppp) := by
  refine ⟨?_, by with_unfolding_all decide, ?_, ?_⟩
  · have hW : (0 : ℚ) ≤ (W : ℚ) := Nat.cast_nonneg W
    have hH : (0 : ℚ) ≤ (H : ℚ) := Nat.cast_nonneg H
    unfold compute_scissor
    dsimp only
    rw [rust_clamp_eq_max_min (ppp * R.min_x) 0 (W : ℚ) hW,
      rust_clamp_eq_max_min (ppp * R.min_y) 0 (H : ℚ) hH,
      rust_clamp_eq_max_min (ppp * R.max_x) _ (W : ℚ)
        (le_trans (max_le hW (min_le_right _ _)) (le_refl _)),
      rust_clamp_eq_max_min (ppp * R.max_y) _ (H : ℚ)
        (le_trans (max_le hH (min_le_right _ _)) (le_refl _))]
  · unfold Painter.paint_mesh
    rw [hit]
    dsimp only
    rw [hgl]
    rcases hsc : compute_scissor ps.canvas_width ps.canvas_height ppp R with
      ⟨sx, sy, sw, sh⟩
    dsimp only
    refine ⟨_, rfl, ?_⟩
    simp
  · unfold GuiRender.paint_mesh
    rw [hgt]
    dsimp only
    rcases hsc : compute_scissor gs.canvas_width gs.canvas_height ppp R with
      ⟨sx, sy, sw, sh⟩
    dsimp only
    simp

/-! ## C8: clipboard chords -/

/-- C8 (confirmed).  On a key press matching a clipboard chord, exactly
one of Cut, Copy, Paste is pushed (the chord test order being cut, copy,
paste), except that no Paste is pushed when the clipboard is unavailable
or its content is empty; any pushed Paste carries the clipboard content
with every CRLF replaced by LF.  The Key event that may follow the chord
event is not a clipboard event and does not affect the count. -/
theorem clipboard_chords (windows : Bool) (clipboard : Option String)
    (keycode : GKey) (keymod : GlfwMods)
    (_hchord : is_cut_command windows (translate_modifiers keymod) keycode = true ∨
      is_copy_command windows (translate_modifiers keymod) keycode = true ∨
      is_paste_command windows (translate_modifiers keymod) keycode = true) :
    (is_cut_command windows (translate_modifiers keymod) keycode = true →
       ((handle_key windows clipboard keycode KAction.Press keymod).2.countP
           EguiEvent.is_ccp = 1 ∧
        EguiEvent.Cut ∈ (handle_key windows clipboard keycode KAction.Press keymod).2))
    ∧ (is_cut_command windows (translate_modifiers keymod) keycode = false →
       is_copy_command windows (translate_modifiers keymod) keycode = true →
       ((handle_key windows clipboard keycode KAction.Press keymod).2.countP
           EguiEvent.is_ccp = 1 ∧
        EguiEvent.Copy ∈ (handle_key windows clipboard keycode KAction.Press keymod).2))
    ∧ (is_cut_command windows (translate_modifiers keymod) keycode = false →
       is_copy_command windows (translate_modifiers keymod) keycode = false →
       is_paste_command windows (translate_modifiers keymod) keycode = true →
       (∀ t, get_clipboard_content clipboard = some t →
          ((handle_key windows clipboard keycode KAction.Press keymod).2.countP
              EguiEvent.is_ccp = 1 ∧
           EguiEvent.Paste t ∈
             (handle_key windows clipboard keycode KAction.Press keymod).2))
       ∧ (get_clipboard_content clipboard = none →
          ((handle_key windows clipboard keycode KAction.Press keymod).2.countP
              EguiEvent.is_ccp = 0 ∧
           ∀ s, EguiEvent.Paste s ∉
             (handle_key windows clipboard keycode KAction.Press keymod).2)))
    ∧ (∀ s, EguiEvent.Paste s ∈
        (handle_key windows clipboard keycode KAction.Press keymod).2 →
        ∃ c, clipboard = some c ∧ c.isEmpty = false ∧
          s = c.replace "\r\n" "\n")
    ∧ (get_clipboard_content clipboard = none ↔
        clipboard = none ∨ ∃ c, clipboard = some c ∧ c.isEmpty = true) := by
  have hccp_key : ∀ (k : EKey) (b1 b2 : Bool) (m : Modifiers),
      EguiEvent.is_ccp (EguiEvent.Key k b1 b2 m) = false := fun _ _ _ _ => rfl
  unfold handle_key
  dsimp only
  rcases hk : translate_virtual_key_code keycode with - | key <;>
    by_cases hcut : is_cut_command windows (translate_modifiers keymod) keycode = true <;>
      by_cases hcopy : is_copy_command windows (translate_modifiers keymod) keycode = true <;>
        by_cases hpaste : is_paste_command windows (translate_modifiers keymod) keycode = true <;>
          rcases hclip : get_clipboard_content clipboard with - | content <;>
            rcases hcb : clipboard with - | c <;>
              simp_all [get_clipboard_content, EguiEvent.is_ccp]

/-- C8 witness: shift-Insert on a windows host with clipboard content
containing a CRLF pushes exactly one Paste with the CRLF replaced. -/
theorem clipboard_chords_witness :
    (handle_key true (some "a\r\nb") GKey.Insert KAction.Press
        { alt := false, ctrl := false, shift := true }).2.countP
      EguiEvent.is_ccp = 1 ∧
    EguiEvent.Paste "a\nb" ∈
      (handle_key true (some "a\r\nb") GKey.Insert KAction.Press
        { alt := false, ctrl := false, shift := true }).2 :=
  ((clipboard_chords true (some "a\r\nb") GKey.Insert
      { alt := false, ctrl := false, shift := true }
      (Or.inr (Or.inr (by decide)))).2.2.1
    (by decide) (by decide) (by decide)).1 "a\nb"
    (by with_unfolding_all decide)

/-! ## C10: u32 to u16 index narrowing -/

/-- C10 (confirmed).  Both paint_mesh functions narrow every 32-bit mesh
index to 16 bits by a plain truncating cast, so the submitted index list
is the original list taken modulo 65536; a mesh whose indices reach
65536 or beyond is still drawn — the draw call covers the full index
count — and no diagnostic is produced on that path. -/
theorem index_narrowing (ps : Painter.State) (gs : GuiRender.State)
    (mesh : Mesh) (clip_rect : Rect) (ppp : ℚ)
    (it : Painter.UserTexture) (gl_name : ℕ) (gt : GuiTexture)
    (hit : lookup_tex ps.textures mesh.texture_id = some it)
    (hgl : it.gl_texture_id = some gl_name)
    (hgt : lookup_tex gs.textures mesh.texture_id = some gt) :
    (∃ tr, Painter.paint_mesh ps mesh clip_rect ppp = Except.ok tr ∧
       Action.glBufferIndexData (mesh.indices.map fun idx => idx % 65536) ∈ tr ∧
       Action.glDrawElements mesh.indices.length ∈ tr ∧
       ∀ msg, Action.diag msg ∉ tr)
    ∧ (Action.glBufferIndexData (mesh.indices.map fun idx => idx % 65536) ∈
         GuiRender.paint_mesh gs mesh clip_rect ppp ∧
       Action.glDrawElements mesh.indices.length ∈
         GuiRender.paint_mesh gs mesh clip_rect ppp ∧
       ∀ msg, Action.diag msg ∉ GuiRender.paint_mesh gs mesh clip_rect ppp)
    ∧ (∀ i ∈ mesh.indices.map (fun idx => idx % 65536), i < 65536) := by
  refine ⟨?_, ?_, ?_⟩
  · unfold Painter.paint_mesh
    rw [hit]
    dsimp only
    rw [hgl]
    rcases hsc : compute_scissor ps.canvas_width ps.canvas_height ppp clip_rect with
      ⟨sx, sy, sw, sh⟩
    dsimp only
    refine ⟨_, rfl, by simp, by simp, by intro msg; simp⟩
  · unfold GuiRender.paint_mesh
    rw [hgt]
    dsimp only
    rcases hsc : compute_scissor gs.canvas_width gs.canvas_height ppp clip_rect with
      ⟨sx, sy, sw, sh⟩
    dsimp only
    refine ⟨by simp, by simp, by intro msg; simp⟩
  · intro i hi
    rcases List.mem_map.mp hi with ⟨x, _, rfl⟩
    exact Nat.mod_lt x (by norm_num)

/-- C10 witness: a mesh with indices [0, 65536, 65537] is submitted as
[0, 0, 1] and still drawn, with no diagnostic. -/
theorem index_narrowing_witness :
    Fixtures.mesh_big.indices = [0, 65536, 65537] ∧
    Fixtures.mesh_big.indices.map (fun idx => idx % 65536) = [0, 0, 1] ∧
    (∃ tr, Painter.paint_mesh Fixtures.pstate_realized Fixtures.mesh_big
        Fixtures.clip0 1 = Except.ok tr ∧
      Action.glBufferIndexData [0, 0, 1] ∈ tr ∧
      Action.glDrawElements 3 ∈ tr ∧
      ∀ msg, Action.diag msg ∉ tr) := by
  refine ⟨rfl, by decide, ?_⟩
  obtain ⟨tr, htr, h1, h2, h3⟩ :=
    (index_narrowing Fixtures.pstate_realized Fixtures.gstate_realized
      Fixtures.mesh_big Fixtures.clip0 1
      Fixtures.ptex_realized 7 Fixtures.gtex_realized
      (by decide) (by decide) (by decide)).1
  exact ⟨tr, htr, by simpa using h1, by simpa using h2, h3⟩

/-! ## C6: scissor-test disable placement -/

/-- C6 (code bug).  In src/painter.rs the scissor test is enabled once
before the primitive loop but disabled inside the loop, after every
mesh: on a frame with two meshes the trace has a draw at position 19, a
scissor-test disable at position 23 and the second draw at position 34,
so the disable falls between two primitives of the same frame, the test
is disabled twice rather than exactly once, and the second mesh is drawn
with the scissor test off.  (The src/gui/ui_render.rs variant disables
it once after the loop, as the claim states.) -/
theorem scissor_disabled_between_primitives :
    is_ok Fixtures.c6_result = true ∧
    Fixtures.c6_trace.get? 19 = some (Action.glDrawElements 3) ∧
    Fixtures.c6_trace.get? 23 = some (Action.glDisable GLCap.ScissorTest) ∧
    Fixtures.c6_trace.get? 34 = some (Action.glDrawElements 3) ∧
    Fixtures.c6_trace.countP
      (fun a => a == Action.glDisable GLCap.ScissorTest) = 2 ∧
    Fixtures.c6_trace.countP
      (fun a => a == Action.glEnable GLCap.ScissorTest) = 1 := by
  with_unfolding_all decide

/-! ## C3: font gamma constants -/

/-- C3 counterexample.  A full-image font delta (pos absent) processed by
the painter is staged and uploaded with srgba_pixels gamma 1.0, not the
claimed 0.4: the frame trace contains the upload of the font payload
with gamma 1, and no action of the frame carries gamma 0.4. -/
theorem font_gamma_full_set_refuted :
    is_ok Fixtures.c3_result = true ∧
    Action.glTexImage2D InternalFormat.Rgba 1 1 (PixelData.fontBytes 1 1)
      ∈ Fixtures.c3_trace ∧
    (∀ a ∈ Fixtures.c3_trace, ¬a.font_gamma = some (4/10)) ∧
    ¬(1 : ℚ) = 4/10 := by
  with_unfolding_all decide

/-- C3 amended and proved.  The gamma handed to srgba_pixels is a
per-backend constant, not a per-delta-kind one: src/painter.rs uses
gamma 1.0 for both sub-region font updates and full font-image sets
(staging the full image for the later user-texture upload), while
src/gui/ui_render.rs uses gamma 0.4 for both kinds. -/
theorem font_gamma_constants (w h n : ℕ) (opts : TextureOptions)
    (pos : Option (ℕ × ℕ)) (id : TextureId) :
    (∀ p p' tr,
       Painter.set_texture p id ⟨ImageData.Font w h n, opts, pos⟩ =
         Except.ok (p', tr) →
       (∀ a ∈ tr, ∀ γ, a.font_gamma = some γ → γ = 1) ∧
       (pos = none → ∃ t, lookup_tex p'.textures id = some t ∧
         t.pixels = PixelData.fontBytes 1 n))
    ∧ (∀ g g' tr,
       GuiRender.upload_egui_texture g id ⟨ImageData.Font w h n, opts, pos⟩ =
         Except.ok (g', tr) →
       (∀ a ∈ tr, ∀ γ, a.font_gamma = some γ → γ = 4/10) ∧
       (∃ a ∈ tr, a.font_gamma = some (4/10))) := by
  constructor
  · intro p p' tr hok
    unfold Painter.set_texture at hok
    dsimp only [ImageData.size] at hok
    cases pos with
    | some xy =>
        obtain ⟨x, y⟩ := xy
        cases hl : lookup_tex p.textures id with
        | none =>
            rw [hl] at hok
            dsimp only at hok
            injection hok with hpair
            injection hpair with hp htr
            subst htr
            refine ⟨?_, fun hc => by cases hc⟩
            simp [List.forall_mem_cons, Action.font_gamma]
        | some texture =>
            rw [hl] at hok
            dsimp only at hok
            by_cases hwh : w * h = n
            · rw [if_pos hwh] at hok
              unfold Painter.UserTexture.update_texture_part at hok
              by_cases h1 : (x : ℤ) + (w : ℤ) ≤ (texture.size.1 : ℤ)
              · rw [if_pos h1] at hok
                by_cases h2 : (y : ℤ) + (h : ℤ) ≤ (texture.size.2 : ℤ)
                · rw [if_pos h2] at hok
                  dsimp only at hok
                  injection hok with hpair
                  injection hpair with hp htr
                  subst htr
                  refine ⟨?_, fun hc => by cases hc⟩
                  simp [List.forall_mem_cons, Action.font_gamma]
                · rw [if_neg h2] at hok
                  exact Except.noConfusion hok
              · rw [if_neg h1] at hok
                exact Except.noConfusion hok
            · rw [if_neg hwh] at hok
              exact Except.noConfusion hok
    | none =>
        dsimp only at hok
        by_cases hwh : w * h = n
        · rw [if_pos hwh] at hok
          rcases hins : insert_tex p.textures id
              ({ size := (w, h), pixels := PixelData.fontBytes 1 n,
                 gl_texture_id := none, filtering := TextureFilter.Linear,
                 dirty := true } : Painter.UserTexture) with ⟨textures', previous⟩
          dsimp only at hok
          rw [hins] at hok
          dsimp only at hok
          injection hok with hpair
          injection hpair with hp htr
          subst htr
          constructor
          · cases previous with
            | none => simp
            | some prev =>
                unfold Painter.UserTexture.delete
                cases hgl : prev.gl_texture_id with
                | none => simp [hgl]
                | some nm => simp [hgl, List.forall_mem_cons, Action.font_gamma]
          · intro _
            have hli := lookup_insert p.textures id
              ({ size := (w, h), pixels := PixelData.fontBytes 1 n,
                 gl_texture_id := none, filtering := TextureFilter.Linear,
                 dirty := true } : Painter.UserTexture)
            rw [hins] at hli
            rw [← hp]
            exact ⟨_, hli, rfl⟩
        · rw [if_neg hwh] at hok
          exact Except.noConfusion hok
  · intro g g' tr hok
    unfold GuiRender.upload_egui_texture at hok
    dsimp only [ImageData.size] at hok
    cases pos with
    | some xy =>
        obtain ⟨x, y⟩ := xy
        cases hl : lookup_tex g.textures id with
        | none => rw [hl] at hok; exact Except.noConfusion hok
        | some texture =>
            rw [hl] at hok
            dsimp only at hok
            by_cases h1 : x + w ≤ texture.size.1
            · rw [if_pos h1] at hok
              by_cases h2 : y + h ≤ texture.size.2
              · rw [if_pos h2] at hok
                unfold GuiTexture.upload_sub at hok
                by_cases h3 : texture.texture_id = 0
                · rw [if_pos h3] at hok
                  exact Except.noConfusion hok
                · rw [if_neg h3] at hok
                  dsimp only at hok
                  injection hok with hpair
                  injection hpair with hg htr
                  subst htr
                  constructor
                  · simp [List.forall_mem_cons, Action.font_gamma]
                  · exact ⟨Action.glTexSubImage2D x y w h
                      (PixelData.fontBytes (4/10) n), by simp,
                      by simp [Action.font_gamma]⟩
              · rw [if_neg h2] at hok
                exact Except.noConfusion hok
            · rw [if_neg h1] at hok
              exact Except.noConfusion hok
    | none =>
        dsimp only at hok
        unfold GuiTexture.gen_tex_and_bind at hok
        dsimp only [GuiTexture.new] at hok
        rw [if_pos rfl] at hok
        dsimp only at hok
        unfold GuiTexture.upload at hok
        dsimp only at hok
        by_cases h0 : g.next_gl_name = 0
        · rw [if_pos h0] at hok
          exact Except.noConfusion hok
        · rw [if_neg h0] at hok
          dsimp only at hok
          rcases hins : insert_tex g.textures id
              ({ texture_id := g.next_gl_name, options := opts, size := (w, h),
                 pixels := PixelData.colorBytes [], dirty := false } : GuiTexture)
            with ⟨textures', previous⟩
          rw [hins] at hok
          dsimp only at hok
          injection hok with hpair
          injection hpair with hg htr
          subst htr
          constructor
          · rw [List.forall_mem_append, List.forall_mem_append]
            refine ⟨⟨?_, ?_⟩, ?_⟩
            · simp [List.forall_mem_cons, Action.font_gamma]
            · simp [List.forall_mem_cons, Action.font_gamma]
            · cases previous with
              | none => simp
              | some prev =>
                  unfold GuiTexture.free
                  split
                  · simp [List.forall_mem_cons, Action.font_gamma]
                  · simp
          · exact ⟨Action.glTexImage2D InternalFormat.Srgb8Alpha8 w h
              (PixelData.fontBytes (4/10) n), by simp,
              by simp [Action.font_gamma]⟩

/-- C3 witness: the amended gamma theorem applied to a concrete
full-image font delta on both backends. -/
theorem font_gamma_constants_witness :
    (∃ p' tr, Painter.set_texture Fixtures.pstate_empty (TextureId.Managed 0)
        ⟨ImageData.Font 1 1 1, Fixtures.opts0, none⟩ = Except.ok (p', tr) ∧
      (∀ a ∈ tr, ∀ γ, a.font_gamma = some γ → γ = 1) ∧
      ∃ t, lookup_tex p'.textures (TextureId.Managed 0) = some t ∧
        t.pixels = PixelData.fontBytes 1 1) ∧
    (∃ g' tr, GuiRender.upload_egui_texture Fixtures.gstate_empty
        (TextureId.Managed 0) ⟨ImageData.Font 1 1 1, Fixtures.opts0, none⟩ =
          Except.ok (g', tr) ∧
      (∀ a ∈ tr, ∀ γ, a.font_gamma = some γ → γ = 4/10) ∧
      ∃ a ∈ tr, a.font_gamma = some (4/10)) := by
  constructor
  · cases hres : Painter.set_texture Fixtures.pstate_empty (TextureId.Managed 0)
        ⟨ImageData.Font 1 1 1, Fixtures.opts0, none⟩ with
    | error e =>
        have hok : is_ok (Painter.set_texture Fixtures.pstate_empty
            (TextureId.Managed 0)
            ⟨ImageData.Font 1 1 1, Fixtures.opts0, none⟩) = true := by
          with_unfolding_all decide
        rw [hres] at hok
        exact absurd hok (by simp [is_ok])
    | ok pr =>
        obtain ⟨p', tr⟩ := pr
        have hc := (font_gamma_constants 1 1 1 Fixtures.opts0 none
          (TextureId.Managed 0)).1 Fixtures.pstate_empty p' tr hres
        exact ⟨p', tr, rfl, hc.1, hc.2 rfl⟩
  · cases hres : GuiRender.upload_egui_texture Fixtures.gstate_empty
        (TextureId.Managed 0) ⟨ImageData.Font 1 1 1, Fixtures.opts0, none⟩ with
    | error e =>
        have hok : is_ok (GuiRender.upload_egui_texture Fixtures.gstate_empty
            (TextureId.Managed 0)
            ⟨ImageData.Font 1 1 1, Fixtures.opts0, none⟩) = true := by
          with_unfolding_all decide
        rw [hres] at hok
        exact absurd hok (by simp [is_ok])
    | ok pr =>
        obtain ⟨g', tr⟩ := pr
        have hc := (font_gamma_constants 1 1 1 Fixtures.opts0 none
          (TextureId.Managed 0)).2 Fixtures.gstate_empty g' tr hres
        exact ⟨g', tr, rfl, hc.1, hc.2⟩

/-! ## C4: internal texture format -/

/-- C4 counterexample.  The per-frame upload of a dirty user texture in
src/painter.rs calls glTexImage2D with internal format GL_RGBA, not
GL_SRGB8_ALPHA8. -/
theorem painter_upload_not_srgb :
    Action.glTexImage2D InternalFormat.Rgba 1 1
        (PixelData.colorBytes [Fixtures.white])
      ∈ (Painter.upload_user_textures Fixtures.pstate_dirty).2 ∧
    ¬InternalFormat.Rgba = InternalFormat.Srgb8Alpha8 := by
  with_unfolding_all decide

/-- Every full upload issued by one step of the painter upload walk uses
internal format GL_RGBA. -/
lemma upload_one_format (next : ℕ) (t : Painter.UserTexture) :
    ∀ a ∈ (Painter.upload_one next t).2.2,
      (∀ f, a.tex_image_format = some f → f = InternalFormat.Rgba) ∧
      a.is_draw = false := by
  cases hgl : t.gl_texture_id <;>
    cases hf : t.filtering <;>
      by_cases hpe : t.pixels.is_empty = true <;>
        by_cases hd : t.dirty = true <;>
          simp [Painter.upload_one, hgl, hf, hpe, hd, Action.tex_image_format,
            Action.is_draw, List.forall_mem_append, List.forall_mem_cons]

/-- Every full upload issued by the painter upload walk uses GL_RGBA. -/
lemma upload_walk_format (next : ℕ) (l : List (TextureId × Painter.UserTexture)) :
    ∀ a ∈ (Painter.upload_walk next l).2.2,
      (∀ f, a.tex_image_format = some f → f = InternalFormat.Rgba) ∧
      a.is_draw = false := by
  induction l generalizing next with
  | nil => simp [Painter.upload_walk]
  | cons e rest ih =>
      obtain ⟨k, t⟩ := e
      rcases h1 : Painter.upload_one next t with ⟨next', t', actions⟩
      rcases h2 : Painter.upload_walk next' rest with ⟨next'', rest', actions'⟩
      intro a ha
      have hone := upload_one_format next t
      rw [h1] at hone
      have ihh := ih next'
      rw [h2] at ihh
      simp only [Painter.upload_walk, h1, h2] at ha
      rcases List.mem_append.mp ha with ha | ha
      · exact hone a ha
      · exact ihh a ha

/-- Every action of a GuiTexture creation trace carries no full upload. -/
lemma gen_tex_and_bind_no_format (next : ℕ) (t : GuiTexture)
    (next' : ℕ) (t' : GuiTexture) (tr : List Action)
    (h : GuiTexture.gen_tex_and_bind next t = Except.ok (next', t', tr)) :
    ∀ a ∈ tr, a.tex_image_format = none ∧ a.is_draw = false := by
  unfold GuiTexture.gen_tex_and_bind at h
  by_cases h0 : t.texture_id = 0
  · rw [if_pos h0] at h
    injection h with hpair
    injection hpair with h1 hpair
    injection hpair with h2 htr
    subst htr
    simp [List.forall_mem_cons, Action.tex_image_format, Action.is_draw]
  · rw [if_neg h0] at h
    exact Except.noConfusion h

/-- A GuiTexture full upload uses GL_SRGB8_ALPHA8 and is the only upload
in its trace. -/
lemma gui_upload_format (t : GuiTexture) (data : PixelData) (tr : List Action)
    (h : GuiTexture.upload t data = Except.ok tr) :
    ∀ a ∈ tr, (∀ f, a.tex_image_format = some f →
      f = InternalFormat.Srgb8Alpha8) ∧ a.is_draw = false := by
  unfold GuiTexture.upload at h
  by_cases h0 : t.texture_id = 0
  · rw [if_pos h0] at h
    exact Except.noConfusion h
  · rw [if_neg h0] at h
    injection h with htr
    subst htr
    simp [List.forall_mem_cons, Action.tex_image_format, Action.is_draw]

/-- A GuiTexture sub-region upload issues no full upload at all. -/
lemma gui_upload_sub_no_format (t : GuiTexture) (x y w h : ℕ)
    (data : PixelData) (tr : List Action)
    (hok : GuiTexture.upload_sub t x y w h data = Except.ok tr) :
    ∀ a ∈ tr, a.tex_image_format = none ∧ a.is_draw = false := by
  unfold GuiTexture.upload_sub at hok
  by_cases h0 : t.texture_id = 0
  · rw [if_pos h0] at hok
    exact Except.noConfusion hok
  · rw [if_neg h0] at hok
    injection hok with htr
    subst htr
    simp [List.forall_mem_cons, Action.tex_image_format, Action.is_draw]

/-- Freeing a GuiTexture issues no full upload. -/
lemma gui_free_no_format (t : GuiTexture) :
    ∀ a ∈ t.free, a.tex_image_format = none ∧ a.is_draw = false := by
  unfold GuiTexture.free
  split
  · simp [List.forall_mem_cons, Action.tex_image_format, Action.is_draw]
  · simp

/-- Every full upload in an upload_egui_texture trace uses
GL_SRGB8_ALPHA8. -/
lemma upload_egui_texture_format (g : GuiRender.State) (id : TextureId)
    (delta : ImageDelta) (g' : GuiRender.State) (tr : List Action)
    (h : GuiRender.upload_egui_texture g id delta = Except.ok (g', tr)) :
    ∀ a ∈ tr, (∀ f, a.tex_image_format = some f →
      f = InternalFormat.Srgb8Alpha8) ∧ a.is_draw = false := by
  unfold GuiRender.upload_egui_texture at h
  rcases hdata : (match delta.image with
    | ImageData.Color iw ih pixels =>
        if iw * ih = pixels.length then
          Except.ok (PixelData.colorBytes pixels)
        else Except.error "Mismatch between texture size and texel count"
    | ImageData.Font _ _ coverage =>
        Except.ok (PixelData.fontBytes (4/10) coverage)) with e | data
  · rw [hdata] at h
    exact Except.noConfusion h
  · rw [hdata] at h
    dsimp only at h
    rcases hpos : delta.pos with - | ⟨x, y⟩
    · rw [hpos] at h
      dsimp only at h
      rcases hgen : GuiTexture.gen_tex_and_bind g.next_gl_name
          (GuiTexture.new 0 delta.options
            ((delta.image.size).1, (delta.image.size).2)
            (PixelData.colorBytes []) false) with e | ⟨next', texture, gen_actions⟩
      · rw [hgen] at h
        exact Except.noConfusion h
      · rw [hgen] at h
        dsimp only at h
        rcases hup : GuiTexture.upload texture data with e | upload_actions
        · rw [hup] at h
          exact Except.noConfusion h
        · rw [hup] at h
          dsimp only at h
          rcases hins : insert_tex g.textures id texture with ⟨textures', previous⟩
          rw [hins] at h
          dsimp only at h
          injection h with hpair
          injection hpair with hg htr
          subst htr
          intro a ha
          rcases List.mem_append.mp ha with ha | ha
          · rcases List.mem_append.mp ha with ha | ha
            · obtain ⟨hfmt, hdr⟩ := gen_tex_and_bind_no_format _ _ _ _ _ hgen a ha
              exact ⟨fun f hf => absurd (hfmt ▸ hf) (by simp), hdr⟩
            · exact gui_upload_format texture data upload_actions hup a ha
          · cases previous with
            | none => cases ha
            | some prev =>
                obtain ⟨hfmt, hdr⟩ := gui_free_no_format prev a ha
                exact ⟨fun f hf => absurd (hfmt ▸ hf) (by simp), hdr⟩
    · rw [hpos] at h
      dsimp only at h
      rcases hl : lookup_tex g.textures id with - | texture
      · rw [hl] at h
        exact Except.noConfusion h
      · rw [hl] at h
        dsimp only at h
        by_cases h1 : x + (delta.image.size).1 ≤ texture.size.1
        · rw [if_pos h1] at h
          by_cases h2 : y + (delta.image.size).2 ≤ texture.size.2
          · rw [if_pos h2] at h
            rcases hsub : GuiTexture.upload_sub texture x y
                (delta.image.size).1 (delta.image.size).2 data with e | sub_actions
            · rw [hsub] at h
              exact Except.noConfusion h
            · rw [hsub] at h
              dsimp only at h
              injection h with hpair
              injection hpair with hg htr
              subst htr
              intro a ha
              obtain ⟨hfmt, hdr⟩ :=
                gui_upload_sub_no_format texture x y _ _ data sub_actions hsub a ha
              exact ⟨fun f hf => absurd (hfmt ▸ hf) (by simp), hdr⟩
          · rw [if_neg h2] at h
            exact Except.noConfusion h
        · rw [if_neg h1] at h
          exact Except.noConfusion h

/-- Every full upload in an upload_custom_texture step uses
GL_SRGB8_ALPHA8. -/
lemma upload_custom_one_format (next : ℕ) (t : GuiTexture)
    (next' : ℕ) (t' : GuiTexture) (tr : List Action)
    (h : GuiRender.upload_custom_one next t = Except.ok (next', t', tr)) :
    ∀ a ∈ tr, (∀ f, a.tex_image_format = some f →
      f = InternalFormat.Srgb8Alpha8) ∧ a.is_draw = false := by
  unfold GuiRender.upload_custom_one at h
  cases hd : t.dirty with
  | false =>
    rw [hd] at h
    simp only [Bool.not_false, if_true] at h
    injection h with hpair
    injection hpair with h1 hpair
    injection hpair with h2 htr
    subst htr
    simp
  | true =>
    rw [hd] at h
    simp only [Bool.not_true, if_false] at h
    rcases hgen : (if t.texture_id = 0 then
        GuiTexture.gen_tex_and_bind next t
      else Except.ok (next, t, ([] : List Action))) with e | ⟨nx, t1, gen_actions⟩
    · rw [hgen] at h
      exact Except.noConfusion h
    · rw [hgen] at h
      dsimp only at h
      rcases hup : GuiTexture.upload
          { t1 with pixels := PixelData.colorBytes [] } t1.pixels with e | upload_actions
      · rw [hup] at h
        exact Except.noConfusion h
      · rw [hup] at h
        dsimp only at h
        injection h with hpair
        injection hpair with h1 hpair
        injection hpair with h2 htr
        subst htr
        intro a ha
        rcases List.mem_append.mp ha with ha | ha
        · have hgen' : ∀ a ∈ gen_actions,
              a.tex_image_format = none ∧ a.is_draw = false := by
            by_cases h0 : t.texture_id = 0
            · rw [if_pos h0] at hgen
              exact gen_tex_and_bind_no_format _ _ _ _ _ hgen
            · rw [if_neg h0] at hgen
              injection hgen with hpair2
              injection hpair2 with g1 hpair2
              injection hpair2 with g2 gtr
              subst gtr
              simp
          obtain ⟨hfmt, hdr⟩ := hgen' a ha
          exact ⟨fun f hf => absurd (hfmt ▸ hf) (by simp), hdr⟩
        · exact gui_upload_format _ _ _ hup a ha

/-- Every full upload in the custom-texture walk uses GL_SRGB8_ALPHA8. -/
lemma upload_custom_walk_format (next : ℕ)
    (l : List (TextureId × GuiTexture)) (next' : ℕ)
    (l' : List (TextureId × GuiTexture)) (tr : List Action)
    (h : GuiRender.upload_custom_walk next l = Except.ok (next', l', tr)) :
    ∀ a ∈ tr, (∀ f, a.tex_image_format = some f →
      f = InternalFormat.Srgb8Alpha8) ∧ a.is_draw = false := by
  induction l generalizing next next' l' tr with
  | nil =>
      unfold GuiRender.upload_custom_walk at h
      injection h with hpair
      injection hpair with h1 hpair
      injection hpair with h2 htr
      subst htr
      simp
  | cons e rest ih =>
      obtain ⟨k, t⟩ := e
      unfold GuiRender.upload_custom_walk at h
      rcases h1 : GuiRender.upload_custom_one next t with e1 | ⟨nx, t1, actions⟩
      · rw [h1] at h
        exact Except.noConfusion h
      · rw [h1] at h
        dsimp only at h
        rcases h2 : GuiRender.upload_custom_walk nx rest with e2 | ⟨nx2, rest2, actions2⟩
        · rw [h2] at h
          exact Except.noConfusion h
        · rw [h2] at h
          dsimp only at h
          injection h with hpair
          injection hpair with hh1 hpair
          injection hpair with hh2 htr
          subst htr
          intro a ha
          rcases List.mem_append.mp ha with ha | ha
          · exact upload_custom_one_format next t nx t1 actions h1 a ha
          · exact ih nx nx2 rest2 actions2 h2 a ha

/-- C4 amended and proved.  All GuiRender full uploads — toolkit deltas
through GuiTexture::upload and the per-frame custom uploads — use
internal format GL_SRGB8_ALPHA8, while every full upload issued by
Painter::upload_user_textures (the only full-upload site of the painter
backend) uses GL_RGBA. -/
theorem internal_format_constants :
    (∀ p : Painter.State, ∀ a ∈ (Painter.upload_user_textures p).2, ∀ f,
       a.tex_image_format = some f → f = InternalFormat.Rgba)
    ∧ (∀ (g : GuiRender.State) id delta g' tr,
       GuiRender.upload_egui_texture g id delta = Except.ok (g', tr) →
       ∀ a ∈ tr, ∀ f, a.tex_image_format = some f →
         f = InternalFormat.Srgb8Alpha8)
    ∧ (∀ (g : GuiRender.State) g' tr,
       GuiRender.upload_custom_texture g = Except.ok (g', tr) →
       ∀ a ∈ tr, ∀ f, a.tex_image_format = some f →
         f = InternalFormat.Srgb8Alpha8) := by
  refine ⟨?_, ?_, ?_⟩
  · intro p a ha f hf
    have hw := upload_walk_format p.next_gl_name p.textures
    rcases hwalk : Painter.upload_walk p.next_gl_name p.textures with
      ⟨next', textures', actions⟩
    rw [hwalk] at hw
    unfold Painter.upload_user_textures at ha
    rw [hwalk] at ha
    exact (hw a ha).1 f hf
  · intro g id delta g' tr h a ha
    exact (upload_egui_texture_format g id delta g' tr h a ha).1
  · intro g g' tr h
    unfold GuiRender.upload_custom_texture at h
    rcases hwalk : GuiRender.upload_custom_walk g.next_gl_name g.textures with
      e | ⟨next', textures', actions⟩
    · rw [hwalk] at h
      exact Except.noConfusion h
    · rw [hwalk] at h
      dsimp only at h
      injection h with hpair
      injection hpair with hg htr
      subst htr
      intro a ha
      exact (upload_custom_walk_format g.next_gl_name g.textures next'
        textures' actions hwalk a ha).1

/-- C4 witness: the amended theorem applied at the concrete dirty
painter registry, at the concrete member action. -/
theorem internal_format_constants_witness :
    InternalFormat.Rgba = InternalFormat.Rgba :=
  internal_format_constants.1 Fixtures.pstate_dirty
    (Action.glTexImage2D InternalFormat.Rgba 1 1
      (PixelData.colorBytes [Fixtures.white]))
    (by with_unfolding_all decide) InternalFormat.Rgba (by decide)

/-! ## C1: per-frame phase ordering -/

/-- A set-delta application never issues a draw call. -/
lemma set_texture_no_draw (p : Painter.State) (id : TextureId)
    (delta : ImageDelta) (p' : Painter.State) (tr : List Action)
    (h : Painter.set_texture p id delta = Except.ok (p', tr)) :
    ∀ a ∈ tr, a.is_draw = false := by
  unfold Painter.set_texture Painter.UserTexture.update_texture_part
    Painter.UserTexture.delete at h
  dsimp only at h
  repeat' (split at h)
  all_goals try (injection h with hpair; injection hpair with hp htr; subst htr)
  all_goals try (exact Except.noConfusion h)
  all_goals try
    (rename_i heq
     repeat' (split at heq)
     all_goals try (exact Except.noConfusion heq)
     all_goals (injection heq with hpair2
                injection hpair2 with ht hact
                subst hact))
  all_goals simp [List.forall_mem_cons, Action.is_draw]

/-- The painter set-delta loop never issues a draw call. -/
lemma set_loop_no_draw (deltas : List (TextureId × ImageDelta)) :
    ∀ (p : Painter.State) (p' : Painter.State) (tr : List Action),
    Painter.set_loop p deltas = Except.ok (p', tr) →
    ∀ a ∈ tr, a.is_draw = false := by
  induction deltas with
  | nil =>
      intro p p' tr h
      unfold Painter.set_loop at h
      injection h with hpair
      injection hpair with hp htr
      subst htr
      simp
  | cons e rest ih =>
      obtain ⟨id, delta⟩ := e
      intro p p' tr h
      unfold Painter.set_loop at h
      rcases h1 : Painter.set_texture p id delta with e1 | ⟨p1, tr1⟩
      · rw [h1] at h
        exact Except.noConfusion h
      · rw [h1] at h
        dsimp only at h
        rcases h2 : Painter.set_loop p1 rest with e2 | ⟨p2, tr2⟩
        · rw [h2] at h
          exact Except.noConfusion h
        · rw [h2] at h
          dsimp only at h
          injection h with hpair
          injection hpair with hp htr
          subst htr
          intro a ha
          rcases List.mem_append.mp ha with ha | ha
          · exact set_texture_no_draw p id delta p1 tr1 h1 a ha
          · exact ih p1 p2 tr2 h2 a ha

/-- Freeing a painter texture never issues a draw call. -/
lemma free_texture_no_draw (p : Painter.State) (id : TextureId) :
    ∀ a ∈ (Painter.free_texture p id).2, a.is_draw = false := by
  unfold Painter.free_texture Painter.UserTexture.delete
  rcases hrem : remove_tex p.textures id with ⟨l, removed⟩
  dsimp only
  cases removed with
  | none => simp
  | some t =>
      cases hgl : t.gl_texture_id with
      | none => simp [hgl]
      | some nm => simp [hgl, Action.is_draw]

/-- The painter free loop never issues a draw call. -/
lemma free_loop_no_draw (ids : List TextureId) :
    ∀ (p : Painter.State), ∀ a ∈ (Painter.free_loop p ids).2,
      a.is_draw = false := by
  induction ids with
  | nil => intro p; simp [Painter.free_loop]
  | cons id rest ih =>
      intro p
      unfold Painter.free_loop
      rcases h1 : Painter.free_texture p id with ⟨p1, tr1⟩
      rcases h2 : Painter.free_loop p1 rest with ⟨p2, tr2⟩
      dsimp only
      rw [h2]
      dsimp only
      intro a ha
      rcases List.mem_append.mp ha with ha | ha
      · have := free_texture_no_draw p id
        rw [h1] at this
        exact this a ha
      · have := ih p1
        rw [h2] at this
        exact this a ha

/-- The painter frame setup never issues a draw call. -/
lemma frame_setup_no_draw (p : Painter.State) (ppp : ℚ) :
    ∀ a ∈ Painter.frame_setup p ppp, a.is_draw = false := by
  simp [Painter.frame_setup, List.forall_mem_cons, Action.is_draw]

/-- After one painter upload step the texture is realised and clean. -/
lemma upload_one_complete (next : ℕ) (t : Painter.UserTexture) :
    ((Painter.upload_one next t).2.1.gl_texture_id.isSome = true) ∧
    (Painter.upload_one next t).2.1.dirty = false := by
  cases hgl : t.gl_texture_id <;>
    cases hf : t.filtering <;>
      by_cases hpe : t.pixels.is_empty = true <;>
        by_cases hd : t.dirty = true <;>
          simp [Painter.upload_one, hgl, hf, hpe, hd]

/-- After the painter upload walk every texture is realised and clean. -/
lemma upload_walk_complete (l : List (TextureId × Painter.UserTexture)) :
    ∀ (next : ℕ), ∀ e ∈ (Painter.upload_walk next l).2.1,
      e.2.gl_texture_id.isSome = true ∧ e.2.dirty = false := by
  induction l with
  | nil => intro next; simp [Painter.upload_walk]
  | cons e rest ih =>
      obtain ⟨k, t⟩ := e
      intro next
      rcases h1 : Painter.upload_one next t with ⟨next', t', actions⟩
      rcases h2 : Painter.upload_walk next' rest with ⟨next'', rest', actions'⟩
      unfold Painter.upload_walk
      rw [h1]
      dsimp only
      rw [h2]
      dsimp only
      intro e he
      rcases List.mem_cons.mp he with he | he
      · have := upload_one_complete next t
        rw [h1] at this
        rw [he]
        exact this
      · have := ih next'
        rw [h2] at this
        exact this e he

/-- The painter primitive loop is the concatenation, in list order, of
the per-primitive traces. -/
lemma paint_loop_flatten (prims : List ClippedPrimitive) :
    ∀ (p : Painter.State) (ppp : ℚ) (tr : List Action),
    Painter.paint_loop p ppp prims = Except.ok tr →
    ∃ ts, List.Forall₂ (fun cp t => Painter.paint_one p ppp cp = Except.ok t)
      prims ts ∧ tr = ts.flatten := by
  induction prims with
  | nil =>
      intro p ppp tr h
      unfold Painter.paint_loop at h
      injection h with htr
      subst htr
      exact ⟨[], List.Forall₂.nil, rfl⟩
  | cons cp rest ih =>
      intro p ppp tr h
      unfold Painter.paint_loop at h
      rcases h1 : Painter.paint_one p ppp cp with e1 | tr1
      · rw [h1] at h
        exact Except.noConfusion h
      · rw [h1] at h
        dsimp only at h
        rcases h2 : Painter.paint_loop p ppp rest with e2 | tr2
        · rw [h2] at h
          exact Except.noConfusion h
        · rw [h2] at h
          dsimp only at h
          injection h with htr
          subst htr
          obtain ⟨ts, hts, htr2⟩ := ih p ppp tr2 h2
          exact ⟨tr1 :: ts, List.Forall₂.cons h1 hts, by rw [htr2]; rfl⟩

/-- The gui primitive loop is the concatenation, in list order, of the
per-primitive traces. -/
lemma gui_paint_loop_flatten (prims : List ClippedPrimitive) :
    ∀ (g : GuiRender.State) (ppp : ℚ) (tr : List Action),
    GuiRender.paint_loop g ppp prims = Except.ok tr →
    ∃ ts, List.Forall₂ (fun cp t => GuiRender.paint_one g ppp cp = Except.ok t)
      prims ts ∧ tr = ts.flatten := by
  induction prims with
  | nil =>
      intro g ppp tr h
      unfold GuiRender.paint_loop at h
      injection h with htr
      subst htr
      exact ⟨[], List.Forall₂.nil, rfl⟩
  | cons cp rest ih =>
      intro g ppp tr h
      unfold GuiRender.paint_loop at h
      rcases h1 : GuiRender.paint_one g ppp cp with e1 | tr1
      · rw [h1] at h
        exact Except.noConfusion h
      · rw [h1] at h
        dsimp only at h
        rcases h2 : GuiRender.paint_loop g ppp rest with e2 | tr2
        · rw [h2] at h
          exact Except.noConfusion h
        · rw [h2] at h
          dsimp only at h
          injection h with htr
          subst htr
          obtain ⟨ts, hts, htr2⟩ := ih g ppp tr2 h2
          exact ⟨tr1 :: ts, List.Forall₂.cons h1 hts, by rw [htr2]; rfl⟩

/-- The gui set-delta loop never issues a draw call. -/
lemma gui_set_loop_no_draw (deltas : List (TextureId × ImageDelta)) :
    ∀ (g : GuiRender.State) (g' : GuiRender.State) (tr : List Action),
    GuiRender.set_loop g deltas = Except.ok (g', tr) →
    ∀ a ∈ tr, a.is_draw = false := by
  induction deltas with
  | nil =>
      intro g g' tr h
      unfold GuiRender.set_loop at h
      injection h with hpair
      injection hpair with hg htr
      subst htr
      simp
  | cons e rest ih =>
      obtain ⟨id, delta⟩ := e
      intro g g' tr h
      unfold GuiRender.set_loop at h
      rcases h1 : GuiRender.upload_egui_texture g id delta with e1 | ⟨g1, tr1⟩
      · rw [h1] at h
        exact Except.noConfusion h
      · rw [h1] at h
        dsimp only at h
        rcases h2 : GuiRender.set_loop g1 rest with e2 | ⟨g2, tr2⟩
        · rw [h2] at h
          exact Except.noConfusion h
        · rw [h2] at h
          dsimp only at h
          injection h with hpair
          injection hpair with hg htr
          subst htr
          intro a ha
          rcases List.mem_append.mp ha with ha | ha
          · exact (upload_egui_texture_format g id delta g1 tr1 h1 a ha).2
          · exact ih g1 g2 tr2 h2 a ha

/-- Freeing a gui texture never issues a draw call. -/
lemma gui_free_texture_no_draw (g : GuiRender.State) (id : TextureId) :
    ∀ a ∈ (GuiRender.free_texture g id).2, a.is_draw = false := by
  unfold GuiRender.free_texture
  rcases hrem : remove_tex g.textures id with ⟨l, removed⟩
  dsimp only
  cases removed with
  | none => simp
  | some t =>
      intro a ha
      exact (gui_free_no_format t a ha).2

/-- The gui free loop never issues a draw call. -/
lemma gui_free_loop_no_draw (ids : List TextureId) :
    ∀ (g : GuiRender.State), ∀ a ∈ (GuiRender.free_loop g ids).2,
      a.is_draw = false := by
  induction ids with
  | nil => intro g; simp [GuiRender.free_loop]
  | cons id rest ih =>
      intro g
      unfold GuiRender.free_loop
      rcases h1 : GuiRender.free_texture g id with ⟨g1, tr1⟩
      rcases h2 : GuiRender.free_loop g1 rest with ⟨g2, tr2⟩
      dsimp only
      rw [h2]
      dsimp only
      intro a ha
      rcases List.mem_append.mp ha with ha | ha
      · have := gui_free_texture_no_draw g id
        rw [h1] at this
        exact this a ha
      · have := ih g1
        rw [h2] at this
        exact this a ha

/-- The gui frame setup never issues a draw call. -/
lemma gui_frame_setup_no_draw (g : GuiRender.State) (ppp : ℚ) :
    ∀ a ∈ GuiRender.frame_setup g ppp, a.is_draw = false := by
  simp [GuiRender.frame_setup, List.forall_mem_cons, Action.is_draw]

/-- Entries after an insert are old entries or the inserted pair. -/
lemma mem_insert_tex {α : Type} (l : List (TextureId × α)) (k : TextureId)
    (v : α) : ∀ e ∈ (insert_tex l k v).1, e ∈ l ∨ e = (k, v) := by
  induction l with
  | nil => simp [insert_tex]
  | cons hd rest ih =>
      obtain ⟨hk, hv⟩ := hd
      by_cases hkk : hk = k
      · subst hkk
        simp only [insert_tex, if_pos rfl]
        intro e he
        rcases List.mem_cons.mp he with he | he
        · exact Or.inr (by rw [he])
        · exact Or.inl (List.mem_cons.mpr (Or.inr he))
      · rcases hrec : insert_tex rest k v with ⟨rest', prev⟩
        rw [hrec] at ih
        simp only [insert_tex, if_neg hkk, hrec]
        intro e he
        rcases List.mem_cons.mp he with he | he
        · exact Or.inl (List.mem_cons.mpr (Or.inl he))
        · rcases ih e he with h | h
          · exact Or.inl (List.mem_cons.mpr (Or.inr h))
          · exact Or.inr h

/-- A toolkit set-delta keeps the gui name supply positive and keeps
every uncreated texture dirty. -/
lemma upload_egui_invariant (g : GuiRender.State) (id : TextureId)
    (delta : ImageDelta) (g' : GuiRender.State) (tr : List Action)
    (hnext : 0 < g.next_gl_name)
    (hinv : ∀ e ∈ g.textures, e.2.texture_id = 0 → e.2.dirty = true)
    (h : GuiRender.upload_egui_texture g id delta = Except.ok (g', tr)) :
    0 < g'.next_gl_name ∧
    (∀ e ∈ g'.textures, e.2.texture_id = 0 → e.2.dirty = true) := by
  unfold GuiRender.upload_egui_texture at h
  rcases hdata : (match delta.image with
    | ImageData.Color iw ih pixels =>
        if iw * ih = pixels.length then
          Except.ok (PixelData.colorBytes pixels)
        else Except.error "Mismatch between texture size and texel count"
    | ImageData.Font _ _ coverage =>
        Except.ok (PixelData.fontBytes (4/10) coverage)) with e | data
  · rw [hdata] at h
    exact Except.noConfusion h
  · rw [hdata] at h
    dsimp only at h
    rcases hpos : delta.pos with - | ⟨x, y⟩
    · rw [hpos] at h
      dsimp only at h
      unfold GuiTexture.gen_tex_and_bind at h
      dsimp only [GuiTexture.new] at h
      rw [if_pos rfl] at h
      dsimp only at h
      unfold GuiTexture.upload at h
      dsimp only at h
      by_cases h0 : g.next_gl_name = 0
      · rw [if_pos h0] at h
        exact Except.noConfusion h
      · rw [if_neg h0] at h
        dsimp only at h
        rcases hins : insert_tex g.textures id
            ({ texture_id := g.next_gl_name, options := delta.options,
               size := ((delta.image.size).1, (delta.image.size).2),
               pixels := PixelData.colorBytes [], dirty := false } : GuiTexture)
          with ⟨textures', previous⟩
        rw [hins] at h
        dsimp only at h
        injection h with hpair
        injection hpair with hg htr
        rw [← hg]
        constructor
        · exact Nat.lt_of_lt_of_le hnext (Nat.le_succ _)
        · intro e he hid
          have hmem := mem_insert_tex g.textures id
            ({ texture_id := g.next_gl_name, options := delta.options,
               size := ((delta.image.size).1, (delta.image.size).2),
               pixels := PixelData.colorBytes [], dirty := false } : GuiTexture)
          rw [hins] at hmem
          rcases hmem e he with he' | he'
          · exact hinv e he' hid
          · exfalso
            rw [he'] at hid
            exact h0 hid
    · rw [hpos] at h
      dsimp only at h
      rcases hl : lookup_tex g.textures id with - | texture
      · rw [hl] at h
        exact Except.noConfusion h
      · rw [hl] at h
        dsimp only at h
        by_cases h1 : x + (delta.image.size).1 ≤ texture.size.1
        · rw [if_pos h1] at h
          by_cases h2 : y + (delta.image.size).2 ≤ texture.size.2
          · rw [if_pos h2] at h
            rcases hsub : GuiTexture.upload_sub texture x y
                (delta.image.size).1 (delta.image.size).2 data with e | sub_actions
            · rw [hsub] at h
              exact Except.noConfusion h
            · rw [hsub] at h
              dsimp only at h
              injection h with hpair
              injection hpair with hg htr
              rw [← hg]
              exact ⟨hnext, hinv⟩
          · rw [if_neg h2] at h
            exact Except.noConfusion h
        · rw [if_neg h1] at h
          exact Except.noConfusion h

/-- The gui set-delta loop preserves the name-supply and dirty
invariants. -/
lemma gui_set_loop_invariant (deltas : List (TextureId × ImageDelta)) :
    ∀ (g g' : GuiRender.State) (tr : List Action),
    0 < g.next_gl_name →
    (∀ e ∈ g.textures, e.2.texture_id = 0 → e.2.dirty = true) →
    GuiRender.set_loop g deltas = Except.ok (g', tr) →
    0 < g'.next_gl_name ∧
    (∀ e ∈ g'.textures, e.2.texture_id = 0 → e.2.dirty = true) := by
  induction deltas with
  | nil =>
      intro g g' tr hnext hinv h
      unfold GuiRender.set_loop at h
      injection h with hpair
      injection hpair with hg htr
      rw [← hg]
      exact ⟨hnext, hinv⟩
  | cons e rest ih =>
      obtain ⟨id, delta⟩ := e
      intro g g' tr hnext hinv h
      unfold GuiRender.set_loop at h
      rcases h1 : GuiRender.upload_egui_texture g id delta with e1 | ⟨g1, tr1⟩
      · rw [h1] at h
        exact Except.noConfusion h
      · rw [h1] at h
        dsimp only at h
        rcases h2 : GuiRender.set_loop g1 rest with e2 | ⟨g2, tr2⟩
        · rw [h2] at h
          exact Except.noConfusion h
        · rw [h2] at h
          dsimp only at h
          injection h with hpair
          injection hpair with hg htr
          obtain ⟨hn1, hi1⟩ := upload_egui_invariant g id delta g1 tr1 hnext hinv h1
          obtain ⟨hn2, hi2⟩ := ih g1 g2 tr2 hn1 hi1 h2
          rw [← hg]
          exact ⟨hn2, hi2⟩

/-- One custom-upload step realises a dirty texture and keeps clean ones
realised, never shrinking the name supply. -/
lemma upload_custom_one_complete (next : ℕ) (t : GuiTexture)
    (next' : ℕ) (t' : GuiTexture) (tr : List Action)
    (hnext : 0 < next) (hinv : t.texture_id = 0 → t.dirty = true)
    (h : GuiRender.upload_custom_one next t = Except.ok (next', t', tr)) :
    ¬t'.texture_id = 0 ∧ t'.dirty = false ∧ 0 < next' := by
  unfold GuiRender.upload_custom_one at h
  cases hd : t.dirty with
  | false =>
      rw [hd] at h
      simp only [Bool.not_false, if_true] at h
      injection h with hpair
      injection hpair with h1 hpair
      injection hpair with h2 htr
      rw [← h1, ← h2]
      refine ⟨?_, hd, hnext⟩
      intro h0
      rw [hinv h0] at hd
      exact Bool.noConfusion hd
  | true =>
      rw [hd] at h
      simp only [Bool.not_true, if_false] at h
      by_cases h0 : t.texture_id = 0
      · rw [if_pos h0] at h
        unfold GuiTexture.gen_tex_and_bind at h
        rw [if_pos h0] at h
        dsimp only at h
        unfold GuiTexture.upload at h
        dsimp only at h
        by_cases hn0 : next = 0
        · exact absurd hn0 (Nat.pos_iff_ne_zero.mp hnext)
        · rw [if_neg hn0] at h
          dsimp only at h
          injection h with hpair
          injection hpair with h1 hpair
          injection hpair with h2 htr
          rw [← h1, ← h2]
          exact ⟨hn0, rfl, Nat.lt_of_lt_of_le hnext (Nat.le_succ _)⟩
      · rw [if_neg h0] at h
        dsimp only at h
        unfold GuiTexture.upload at h
        dsimp only at h
        rw [if_neg h0] at h
        dsimp only at h
        injection h with hpair
        injection hpair with h1 hpair
        injection hpair with h2 htr
        rw [← h1, ← h2]
        exact ⟨h0, rfl, hnext⟩

/-- After the custom-upload walk, every texture is realised and clean. -/
lemma upload_custom_walk_complete (l : List (TextureId × GuiTexture)) :
    ∀ (next next' : ℕ) (l' : List (TextureId × GuiTexture)) (tr : List Action),
    0 < next →
    (∀ e ∈ l, e.2.texture_id = 0 → e.2.dirty = true) →
    GuiRender.upload_custom_walk next l = Except.ok (next', l', tr) →
    (∀ e ∈ l', ¬e.2.texture_id = 0 ∧ e.2.dirty = false) ∧ 0 < next' := by
  induction l with
  | nil =>
      intro next next' l' tr hnext hinv h
      unfold GuiRender.upload_custom_walk at h
      injection h with hpair
      injection hpair with h1 hpair
      injection hpair with h2 htr
      rw [← h1, ← h2]
      exact ⟨by simp, hnext⟩
  | cons e rest ih =>
      obtain ⟨k, t⟩ := e
      intro next next' l' tr hnext hinv h
      unfold GuiRender.upload_custom_walk at h
      rcases h1 : GuiRender.upload_custom_one next t with e1 | ⟨nx, t1, actions⟩
      · rw [h1] at h
        exact Except.noConfusion h
      · rw [h1] at h
        dsimp only at h
        rcases h2 : GuiRender.upload_custom_walk nx rest with e2 | ⟨nx2, rest2, actions2⟩
        · rw [h2] at h
          exact Except.noConfusion h
        · rw [h2] at h
          dsimp only at h
          injection h with hpair
          injection hpair with hh1 hpair
          injection hpair with hh2 htr
          obtain ⟨ht1, hd1, hn1⟩ := upload_custom_one_complete next t nx t1
            actions hnext (fun hz => hinv (k, t) (List.mem_cons_self _ _) hz) h1
          obtain ⟨hall, hn2⟩ := ih nx nx2 rest2 actions2 hn1
            (fun e he hz => hinv e (List.mem_cons.mpr (Or.inr he)) hz) h2
          rw [← hh2]
          refine ⟨?_, by rw [← hh1]; exact hn2⟩
          intro e he
          rcases List.mem_cons.mp he with he | he
          · rw [he]
            exact ⟨ht1, hd1⟩
          · exact hall e he

/-- C1 (confirmed).  Both per-frame entry points perform their work in
phases, in this order: every set-delta in list order, then the user
(custom) texture uploads — after which every registry entry is realised
and clean — then the primitive loop, whose trace is the concatenation of
the per-primitive traces in list order, and finally every free-delta in
list order.  No draw call occurs outside the primitive phase, so a
set-delta precedes every draw of its frame and a free follows every
draw.  (For GuiRender the upload-phase completeness needs the reachable
invariants: a positive GL name supply and every uncreated texture
dirty.) -/
theorem frame_phase_ordering :
    (∀ (p : Painter.State) (ppp : ℚ) (prims : List ClippedPrimitive)
       (delta : TexturesDelta) (p' : Painter.State) (tr : List Action),
       Painter.paint_and_update_textures p ppp prims delta = Except.ok (p', tr) →
       ∃ p1 tset p2 tup tloop ts tfree,
         Painter.set_loop p delta.set = Except.ok (p1, tset) ∧
         Painter.upload_user_textures p1 = (p2, tup) ∧
         Painter.paint_loop p2 ppp prims = Except.ok tloop ∧
         List.Forall₂ (fun cp t => Painter.paint_one p2 ppp cp = Except.ok t)
           prims ts ∧
         tloop = ts.flatten ∧
         Painter.free_loop p2 delta.free = (p', tfree) ∧
         tr = tset ++ (tup ++ Painter.frame_setup p2 ppp ++ tloop ++
           [Action.glDisable GLCap.FramebufferSrgb]) ++ tfree ∧
         (∀ a ∈ tset, a.is_draw = false) ∧
         (∀ a ∈ tup, a.is_draw = false) ∧
         (∀ a ∈ Painter.frame_setup p2 ppp, a.is_draw = false) ∧
         (∀ a ∈ tfree, a.is_draw = false) ∧
         (∀ e ∈ p2.textures, e.2.gl_texture_id.isSome = true ∧
           e.2.dirty = false))
    ∧ (∀ (g : GuiRender.State) (ppp : ℚ) (prims : List ClippedPrimitive)
       (delta : TexturesDelta) (g' : GuiRender.State) (tr : List Action),
       0 < g.next_gl_name →
       (∀ e ∈ g.textures, e.2.texture_id = 0 → e.2.dirty = true) →
       GuiRender.render g ppp prims delta = Except.ok (g', tr) →
       ∃ g1 tset g2 tup tloop ts tfree,
         GuiRender.set_loop g delta.set = Except.ok (g1, tset) ∧
         GuiRender.upload_custom_texture g1 = Except.ok (g2, tup) ∧
         GuiRender.paint_loop g2 ppp prims = Except.ok tloop ∧
         List.Forall₂ (fun cp t => GuiRender.paint_one g2 ppp cp = Except.ok t)
           prims ts ∧
         tloop = ts.flatten ∧
         GuiRender.free_loop g2 delta.free = (g', tfree) ∧
         tr = tset ++ tup ++ (GuiRender.frame_setup g2 ppp ++ tloop ++
           [Action.glDisable GLCap.ScissorTest]) ++ tfree ∧
         (∀ a ∈ tset, a.is_draw = false) ∧
         (∀ a ∈ tup, a.is_draw = false) ∧
         (∀ a ∈ GuiRender.frame_setup g2 ppp, a.is_draw = false) ∧
         (∀ a ∈ tfree, a.is_draw = false) ∧
         (∀ e ∈ g2.textures, ¬e.2.texture_id = 0 ∧ e.2.dirty = false)) := by
  constructor
  · intro p ppp prims delta p' tr h
    unfold Painter.paint_and_update_textures at h
    rcases hset : Painter.set_loop p delta.set with e | ⟨p1, tset⟩
    · rw [hset] at h
      exact Except.noConfusion h
    · rw [hset] at h
      dsimp only at h
      rcases hpp : Painter.paint_primitives p1 ppp prims with e | ⟨p2, tpaint⟩
      · rw [hpp] at h
        exact Except.noConfusion h
      · rw [hpp] at h
        dsimp only at h
        rcases hfree : Painter.free_loop p2 delta.free with ⟨p3, tfree⟩
        rw [hfree] at h
        dsimp only at h
        injection h with hpair
        injection hpair with hp3 htr
        unfold Painter.paint_primitives at hpp
        rcases hup : Painter.upload_user_textures p1 with ⟨p2u, tup⟩
        rw [hup] at hpp
        dsimp only at hpp
        rcases hloop : Painter.paint_loop p2u ppp prims with e | tloop
        · rw [hloop] at hpp
          exact Except.noConfusion hpp
        · rw [hloop] at hpp
          dsimp only at hpp
          injection hpp with hpair2
          injection hpair2 with hp2 htp
          subst hp2
          obtain ⟨ts, hts, hflat⟩ := paint_loop_flatten prims p2u ppp tloop hloop
          have hcomplete : ∀ e ∈ p2u.textures,
              e.2.gl_texture_id.isSome = true ∧ e.2.dirty = false := by
            unfold Painter.upload_user_textures at hup
            rcases hwalk : Painter.upload_walk p1.next_gl_name p1.textures with
              ⟨nx, txs, acts⟩
            rw [hwalk] at hup
            dsimp only at hup
            injection hup with hp2u htup
            rw [← hp2u]
            have := upload_walk_complete p1.textures p1.next_gl_name
            rw [hwalk] at this
            exact this
          have htup_nodraw : ∀ a ∈ tup, a.is_draw = false := by
            unfold Painter.upload_user_textures at hup
            rcases hwalk : Painter.upload_walk p1.next_gl_name p1.textures with
              ⟨nx, txs, acts⟩
            rw [hwalk] at hup
            dsimp only at hup
            injection hup with hp2u htup
            rw [← htup]
            intro a ha
            have := upload_walk_format p1.next_gl_name p1.textures
            rw [hwalk] at this
            exact (this a ha).2
          have hfree_nodraw : ∀ a ∈ tfree, a.is_draw = false := by
            have := free_loop_no_draw delta.free p2u
            rw [hfree] at this
            exact this
          refine ⟨p1, tset, p2u, tup, tloop, ts, tfree, rfl, hup, hloop, hts,
            hflat, by rw [hfree, hp3], ?_, ?_, htup_nodraw, ?_, hfree_nodraw,
            hcomplete⟩
          · rw [← htr, ← htp]
          · exact set_loop_no_draw delta.set p p1 tset hset
          · exact frame_setup_no_draw p2u ppp
  · intro g ppp prims delta g' tr hnext hinv h
    unfold GuiRender.render at h
    rcases hset : GuiRender.set_loop g delta.set with e | ⟨g1, tset⟩
    · rw [hset] at h
      exact Except.noConfusion h
    · rw [hset] at h
      dsimp only at h
      rcases hcust : GuiRender.upload_custom_texture g1 with e | ⟨g2, tup⟩
      · rw [hcust] at h
        exact Except.noConfusion h
      · rw [hcust] at h
        dsimp only at h
        rcases hpaint : GuiRender.paint g2 ppp prims with e | tpaint
        · rw [hpaint] at h
          exact Except.noConfusion h
        · rw [hpaint] at h
          dsimp only at h
          rcases hfree : GuiRender.free_loop g2 delta.free with ⟨g3, tfree⟩
          rw [hfree] at h
          dsimp only at h
          injection h with hpair
          injection hpair with hg3 htr
          unfold GuiRender.paint at hpaint
          rcases hloop : GuiRender.paint_loop g2 ppp prims with e | tloop
          · rw [hloop] at hpaint
            exact Except.noConfusion hpaint
          · rw [hloop] at hpaint
            dsimp only at hpaint
            injection hpaint with htp
            obtain ⟨ts, hts, hflat⟩ := gui_paint_loop_flatten prims g2 ppp tloop hloop
            obtain ⟨hn1, hi1⟩ := gui_set_loop_invariant delta.set g g1 tset
              hnext hinv hset
            have hcomplete : (∀ e ∈ g2.textures,
                ¬e.2.texture_id = 0 ∧ e.2.dirty = false) := by
              unfold GuiRender.upload_custom_texture at hcust
              rcases hwalk : GuiRender.upload_custom_walk g1.next_gl_name
                  g1.textures with e | ⟨nx, txs, acts⟩
              · rw [hwalk] at hcust
                exact Except.noConfusion hcust
              · rw [hwalk] at hcust
                dsimp only at hcust
                injection hcust with hpair2
                injection hpair2 with hg2 htup
                rw [← hg2]
                exact (upload_custom_walk_complete g1.textures g1.next_gl_name
                  nx txs acts hn1 hi1 hwalk).1
            have htup_nodraw : ∀ a ∈ tup, a.is_draw = false := by
              unfold GuiRender.upload_custom_texture at hcust
              rcases hwalk : GuiRender.upload_custom_walk g1.next_gl_name
                  g1.textures with e | ⟨nx, txs, acts⟩
              · rw [hwalk] at hcust
                exact Except.noConfusion hcust
              · rw [hwalk] at hcust
                dsimp only at hcust
                injection hcust with hpair2
                injection hpair2 with hg2 htup
                rw [← htup]
                intro a ha
                exact (upload_custom_walk_format g1.next_gl_name g1.textures
                  nx txs acts hwalk a ha).2
            have hfree_nodraw : ∀ a ∈ tfree, a.is_draw = false := by
              have := gui_free_loop_no_draw delta.free g2
              rw [hfree] at this
              exact this
            refine ⟨g1, tset, g2, tup, tloop, ts, tfree, rfl, hcust, hloop,
              hts, hflat, by rw [hfree, hg3], ?_, ?_, htup_nodraw, ?_,
              hfree_nodraw, hcomplete⟩
            · rw [← htr, ← htp]
            · exact gui_set_loop_no_draw delta.set g g1 tset hset
            · exact gui_frame_setup_no_draw g2 ppp

/-- C1 witness: the phase decomposition applied to a concrete frame on
both backends. -/
theorem frame_phase_ordering_witness :
    (∃ p1 tset p2 tup tloop ts tfree,
       Painter.set_loop Fixtures.pstate_empty [] = Except.ok (p1, tset) ∧
       Painter.upload_user_textures p1 = (p2, tup) ∧
       Painter.paint_loop p2 1 [] = Except.ok tloop ∧
       List.Forall₂ (fun cp t => Painter.paint_one p2 1 cp = Except.ok t)
         [] ts ∧
       tloop = ts.flatten ∧
       Painter.free_loop p2 [] = (Fixtures.pstate_empty, tfree) ∧
       Painter.frame_setup Fixtures.pstate_empty 1 ++
           [Action.glDisable GLCap.FramebufferSrgb] =
         tset ++ (tup ++ Painter.frame_setup p2 1 ++ tloop ++
           [Action.glDisable GLCap.FramebufferSrgb]) ++ tfree ∧
       (∀ a ∈ tset, a.is_draw = false) ∧
       (∀ a ∈ tup, a.is_draw = false) ∧
       (∀ a ∈ Painter.frame_setup p2 1, a.is_draw = false) ∧
       (∀ a ∈ tfree, a.is_draw = false) ∧
       (∀ e ∈ p2.textures, e.2.gl_texture_id.isSome = true ∧
         e.2.dirty = false))
    ∧ (∃ g1 tset g2 tup tloop ts tfree,
       GuiRender.set_loop Fixtures.gstate_empty [] = Except.ok (g1, tset) ∧
       GuiRender.upload_custom_texture g1 = Except.ok (g2, tup) ∧
       GuiRender.paint_loop g2 1 [] = Except.ok tloop ∧
       List.Forall₂ (fun cp t => GuiRender.paint_one g2 1 cp = Except.ok t)
         [] ts ∧
       tloop = ts.flatten ∧
       GuiRender.free_loop g2 [] = (Fixtures.gstate_empty, tfree) ∧
       GuiRender.frame_setup Fixtures.gstate_empty 1 ++
           [Action.glDisable GLCap.ScissorTest] =
         tset ++ tup ++ (GuiRender.frame_setup g2 1 ++ tloop ++
           [Action.glDisable GLCap.ScissorTest]) ++ tfree ∧
       (∀ a ∈ tset, a.is_draw = false) ∧
       (∀ a ∈ tup, a.is_draw = false) ∧
       (∀ a ∈ GuiRender.frame_setup g2 1, a.is_draw = false) ∧
       (∀ a ∈ tfree, a.is_draw = false) ∧
       (∀ e ∈ g2.textures, ¬e.2.texture_id = 0 ∧ e.2.dirty = false)) :=
  ⟨frame_phase_ordering.1 Fixtures.pstate_empty 1 [] ⟨[], []⟩
      Fixtures.pstate_empty
      (Painter.frame_setup Fixtures.pstate_empty 1 ++
        [Action.glDisable GLCap.FramebufferSrgb])
      (by with_unfolding_all rfl),
   frame_phase_ordering.2 Fixtures.gstate_empty 1 [] ⟨[], []⟩
      Fixtures.gstate_empty
      (GuiRender.frame_setup Fixtures.gstate_empty 1 ++
        [Action.glDisable GLCap.ScissorTest])
      (by decide) (by decide)
      (by with_unfolding_all rfl)⟩

/-! ## C9: pixel-count validation -/

/-- C9 counterexample.  Updating an existing 1 by 1 user texture with an
empty pixel list — violating |pixels| = w * h — succeeds on both
backends: the update functions replace the buffer and set dirty without
any length check. -/
theorem update_length_unchecked :
    ¬Fixtures.ptex_realized.size.1 * Fixtures.ptex_realized.size.2 =
      ([] : List Color32).length ∧
    is_ok (Painter.update_user_texture_data Fixtures.pstate_realized
      (TextureId.User 0) []) = true ∧
    is_ok (GuiRender.update_texture Fixtures.gstate_realized
      (TextureId.User 0) []) = true := by
  with_unfolding_all decide

/-- C9 amended and proved.  Creation checks the texel count on both
backends: new_user_texture / new_texture succeed exactly when
|pixels| = w * h.  The update operations check only that the identifier
exists: they replace the pixel buffer and set dirty for a pixel list of
any length, so the claimed update-time length requirement is absent. -/
theorem pixel_count_validation :
    (∀ (p : Painter.State) size px filt,
       is_ok (Painter.new_user_texture p size px filt) = true ↔
         size.1 * size.2 = px.length)
    ∧ (∀ (g : GuiRender.State) size px opts,
       is_ok (GuiRender.new_texture g size px opts) = true ↔
         size.1 * size.2 = px.length)
    ∧ (∀ (p : Painter.State) id px t, lookup_tex p.textures id = some t →
       ∃ p', Painter.update_user_texture_data p id px = Except.ok p')
    ∧ (∀ (p : Painter.State) id px, lookup_tex p.textures id = none →
       Painter.update_user_texture_data p id px =
         Except.error "Texture with id has not been created")
    ∧ (∀ (g : GuiRender.State) id px t, lookup_tex g.textures id = some t →
       ∃ g', GuiRender.update_texture g id px = Except.ok g')
    ∧ (∀ (g : GuiRender.State) id px, lookup_tex g.textures id = none →
       GuiRender.update_texture g id px =
         Except.error "Texture with id has not been created") := by
  refine ⟨?_, ?_, ?_, ?_, ?_, ?_⟩
  · intro p size px filt
    unfold Painter.new_user_texture
    by_cases hsz : size.1 * size.2 = px.length
    · rcases hins : insert_tex p.textures (TextureId.User p.textures.length)
          ({ size := size, pixels := PixelData.colorBytes px,
             gl_texture_id := none, filtering := filt,
             dirty := true } : Painter.UserTexture) with ⟨textures', previous⟩
      simp [hsz, hins, is_ok]
    · simp [hsz, is_ok]
  · intro g size px opts
    unfold GuiRender.new_texture
    by_cases hsz : size.1 * size.2 = px.length
    · rcases hins : insert_tex g.textures (TextureId.User g.textures.length)
          (GuiTexture.new 0 opts (size.1, size.2)
            (PixelData.colorBytes px) true) with ⟨textures', previous⟩
      simp [hsz, hins, is_ok]
    · simp [hsz, is_ok]
  · intro p id px t hl
    unfold Painter.update_user_texture_data
    rw [hl]
    exact ⟨_, rfl⟩
  · intro p id px hl
    unfold Painter.update_user_texture_data
    rw [hl]
  · intro g id px t hl
    unfold GuiRender.update_texture
    rw [hl]
    exact ⟨_, rfl⟩
  · intro g id px hl
    unfold GuiRender.update_texture
    rw [hl]

/-- C9 witness: the amended theorem applied at a concrete registry; the
update succeeds for a wrong-length pixel list. -/
theorem pixel_count_validation_witness :
    ∃ p', Painter.update_user_texture_data Fixtures.pstate_realized
      (TextureId.User 0) [] = Except.ok p' :=
  pixel_count_validation.2.2.1 Fixtures.pstate_realized (TextureId.User 0)
    [] Fixtures.ptex_realized (by with_unfolding_all decide)

/-! ## C5: user-texture identifier allocation -/

/-- Inserting an absent key appends it, returning no previous value. -/
lemma insert_tex_fresh {α : Type} (l : List (TextureId × α)) (k : TextureId)
    (v : α) (hk : k ∉ l.map Prod.fst) :
    insert_tex l k v = (l ++ [(k, v)], none) := by
  induction l with
  | nil => simp [insert_tex]
  | cons e rest ih =>
      obtain ⟨ek, ev⟩ := e
      simp only [List.map_cons, List.mem_cons, not_or] at hk
      have hek : ¬ek = k := fun hh => hk.1 hh.symm
      rw [insert_tex, if_neg hek, ih hk.2]
      rfl

/-- A successful allocation from a registry with bounded user indices
returns the fresh identifier User(entry count), appends it, and keeps
the user indices bounded. -/
lemma alloc_step (p : Painter.State) (req : AllocReq) (id : TextureId)
    (p' : Painter.State) (hb : Painter.user_indices_bounded p)
    (h : Painter.new_user_texture p req.size req.pixels req.filtering =
      Except.ok (id, p')) :
    id = TextureId.User p.textures.length ∧
    id ∉ Painter.keys p ∧
    p'.textures.length = p.textures.length + 1 ∧
    Painter.keys p' = Painter.keys p ++ [id] ∧
    Painter.user_indices_bounded p' := by
  have hfresh : TextureId.User p.textures.length ∉ p.textures.map Prod.fst := by
    intro hmem
    rcases List.mem_map.mp hmem with ⟨e, he, heq⟩
    have hbe := hb e he
    rw [heq] at hbe
    simp [idx_lt] at hbe
  unfold Painter.new_user_texture at h
  by_cases hsz : req.size.1 * req.size.2 = req.pixels.length
  · rw [if_pos hsz] at h
    dsimp only at h
    rw [insert_tex_fresh _ _ _ hfresh] at h
    dsimp only at h
    injection h with hpair
    injection hpair with hid hp
    refine ⟨hid.symm, ?_, ?_, ?_, ?_⟩
    · rw [← hid]
      exact hfresh
    · rw [← hp]
      simp
    · rw [← hp, ← hid]
      simp [Painter.keys]
    · rw [← hp]
      intro e he
      dsimp only at he ⊢
      simp only [List.length_append, List.length_cons, List.length_nil] at *
      rcases List.mem_append.mp he with he | he
      · have hbe := hb e he
        cases e1 : e.1 with
        | Managed m => simp [idx_lt]
        | User k =>
            rw [e1] at hbe
            simp only [idx_lt, decide_eq_true_eq] at hbe ⊢
            omega
      · simp at he
        rw [he]
        simp [idx_lt]
  · rw [if_neg hsz] at h
    exact Except.noConfusion h

/-- Allocation-only runs from a registry with bounded user indices
return exactly the identifiers User(n), User(n+1), ... in order. -/
lemma alloc_run_ids (reqs : List AllocReq) :
    ∀ (p : Painter.State) (p' : Painter.State) (ids : List TextureId),
    Painter.user_indices_bounded p →
    Painter.alloc_run p reqs = Except.ok (p', ids) →
    ids = (List.range' p.textures.length reqs.length).map TextureId.User ∧
    (∀ id ∈ ids, id ∉ Painter.keys p) := by
  induction reqs with
  | nil =>
      intro p p' ids hb h
      unfold Painter.alloc_run at h
      injection h with hpair
      injection hpair with hp hids
      subst hids
      simp
  | cons req rest ih =>
      intro p p' ids hb h
      unfold Painter.alloc_run at h
      rcases h1 : Painter.new_user_texture p req.size req.pixels req.filtering with
        e | ⟨id0, p1⟩
      · rw [h1] at h
        exact Except.noConfusion h
      · rw [h1] at h
        dsimp only at h
        rcases h2 : Painter.alloc_run p1 rest with e | ⟨p2, ids2⟩
        · rw [h2] at h
          exact Except.noConfusion h
        · rw [h2] at h
          dsimp only at h
          injection h with hpair
          injection hpair with hp hids
          subst hids
          obtain ⟨hid0, hnotin, hlen, hkeys, hb1⟩ :=
            alloc_step p req id0 p1 hb h1
          obtain ⟨hids2, hfresh2⟩ := ih p1 p2 ids2 hb1 h2
          constructor
          · rw [hlen] at hids2
            rw [hids2, hid0, List.length_cons, List.range'_succ]
            simp
          · intro id hid
            rcases List.mem_cons.mp hid with hid | hid
            · rw [hid, hid0]
              intro hmem
              rcases List.mem_map.mp hmem with ⟨e, he, heq⟩
              have hbe := hb e he
              rw [heq] at hbe
              simp [idx_lt] at hbe
            · have hni := hfresh2 id hid
              intro hmem
              apply hni
              rw [hkeys]
              exact List.mem_append.mpr (Or.inl hmem)

/-- C5 counterexample.  Allocate, allocate, free the first identifier,
allocate: the allocations return User 0, User 1, User 1 — the second and
fourth operations return the same identifier, refuting pairwise
distinctness in the presence of frees. -/
theorem user_texture_id_reuse :
    is_ok Fixtures.c5_result = true ∧
    Fixtures.c5_ids = [TextureId.User 0, TextureId.User 1, TextureId.User 1] ∧
    ¬Fixtures.c5_ids.Nodup := by
  with_unfolding_all decide

/-- C5 amended and proved.  An allocation returns User(n) where n is the
current number of registry entries; in any allocation-only sequence from
a registry whose user indices are all below the entry count (as in any
registry built without frees), the returned identifiers are
User(n), User(n+1), ... — pairwise distinct and distinct from every
existing key.  After a free the entry count drops, so an identifier can
be returned twice (see the counterexample). -/
theorem user_texture_id_allocation :
    (∀ (p : Painter.State) size px filt id p',
       Painter.new_user_texture p size px filt = Except.ok (id, p') →
       id = TextureId.User p.textures.length)
    ∧ (∀ (g : GuiRender.State) size px opts id g',
       GuiRender.new_texture g size px opts = Except.ok (id, g') →
       id = TextureId.User g.textures.length)
    ∧ (∀ (p : Painter.State) reqs p' ids,
       Painter.user_indices_bounded p →
       Painter.alloc_run p reqs = Except.ok (p', ids) →
       ids = (List.range' p.textures.length reqs.length).map TextureId.User ∧
       ids.Nodup ∧ (∀ id ∈ ids, id ∉ Painter.keys p)) := by
  refine ⟨?_, ?_, ?_⟩
  · intro p size px filt id p' h
    unfold Painter.new_user_texture at h
    by_cases hsz : size.1 * size.2 = px.length
    · rw [if_pos hsz] at h
      dsimp only at h
      rcases hins : insert_tex p.textures (TextureId.User p.textures.length)
          ({ size := size, pixels := PixelData.colorBytes px,
             gl_texture_id := none, filtering := filt,
             dirty := true } : Painter.UserTexture) with ⟨textures', previous⟩
      rw [hins] at h
      dsimp only at h
      injection h with hpair
      injection hpair with hid hp
      exact hid.symm
    · rw [if_neg hsz] at h
      exact Except.noConfusion h
  · intro g size px opts id g' h
    unfold GuiRender.new_texture at h
    by_cases hsz : size.1 * size.2 = px.length
    · rw [if_pos hsz] at h
      dsimp only at h
      rcases hins : insert_tex g.textures (TextureId.User g.textures.length)
          (GuiTexture.new 0 opts (size.1, size.2)
            (PixelData.colorBytes px) true) with ⟨textures', previous⟩
      rw [hins] at h
      dsimp only at h
      injection h with hpair
      injection hpair with hid hg
      exact hid.symm
    · rw [if_neg hsz] at h
      exact Except.noConfusion h
  · intro p reqs p' ids hb h
    obtain ⟨hids, hfresh⟩ := alloc_run_ids reqs p p' ids hb h
    refine ⟨hids, ?_, hfresh⟩
    rw [hids]
    exact (List.nodup_range' _ _).map
      (fun a b hab => by injection hab)

/-- C5 witness: two allocations from the empty painter return User 0 and
User 1, pairwise distinct and fresh. -/
theorem user_texture_id_allocation_witness :
    [TextureId.User 0, TextureId.User 1] =
      (List.range' 0 2).map TextureId.User ∧
    ([TextureId.User 0, TextureId.User 1] : List TextureId).Nodup ∧
    (∀ id ∈ [TextureId.User 0, TextureId.User 1],
      id ∉ Painter.keys Fixtures.pstate_empty) := by
  have h := user_texture_id_allocation.2.2 Fixtures.pstate_empty
    [Fixtures.req1, Fixtures.req1] Fixtures.pstate_two
    [TextureId.User 0, TextureId.User 1]
    (by unfold Painter.user_indices_bounded; with_unfolding_all decide)
    (by with_unfolding_all rfl)
  exact ⟨h.1, h.2.1, h.2.2⟩

/-- C2 witness: the amended theorem applied at a concrete painter, gui
renderer and mesh. -/
theorem scissor_rectangle_witness :
    (compute_scissor 800 600 2 ⟨10, 5, 50, 45⟩ = (20, 510, 80, 80)) ∧
    (∃ tr, Painter.paint_mesh Fixtures.pstate_realized Fixtures.mesh0
        Fixtures.clip0 2 = Except.ok tr ∧
      (let s := compute_scissor Fixtures.pstate_realized.canvas_width
          Fixtures.pstate_realized.canvas_height 2 Fixtures.clip0
       Action.glScissor s.1 s.2.1 s.2.2.1 s.2.2.2 ∈ tr)) :=
  let h := scissor_rectangle 800 600 2 Fixtures.clip0
    Fixtures.pstate_realized Fixtures.gstate_realized Fixtures.mesh0
    Fixtures.ptex_realized 7 Fixtures.gtex_realized
    (by with_unfolding_all decide) (by with_unfolding_all decide)
    (by with_unfolding_all decide)
  ⟨h.2.1, h.2.2.1⟩

end EguiGlfw
